import Mathlib

/-!
# Verification of the ingestion/scraping engine of `fikir-arka`

This file is a shallow embedding, in Lean 4, of the scraping orchestration
engine of the repository (the live module `app/services/scraper_service.py`,
its caller `main.py`, and `app/services/scheduler_service.py`), together with
proofs settling the frozen claims about its specification.

Modelling conventions, used throughout:

* Python strings are Lean `String`s; `str.lower` / `str.strip` are modelled
  character-wise for the ASCII range (every concrete input used below is
  ASCII).  `len` is the character count, as in Python.
* Machine-level hashing is real: `md5hex` below is the full MD5 algorithm
  over the UTF-8 bytes of the input, producing the lowercase hex digest,
  exactly like `hashlib.md5(s.encode()).hexdigest()`.
* Datetimes are modelled at day granularity as integers (days since an
  arbitrary epoch): the code only ever uses `.days` of datetime differences,
  so `(utcnow() - d).days` becomes `today - d`.  Wall-clock fields of the
  status object (`start_time`, `end_time`, `duration`) and the derived
  `performance`/`results_by_platform` response fields are real-time
  bookkeeping inspected by no claim and are omitted from the model.
* Python floats are modelled as `ℚ`: every popularity formula in the source
  only adds, divides by constants and takes `min`, so the value is exact.
* The record store is a list of persisted `Topic` rows; an SQL `SELECT ...
  WHERE p` probe is `List.any`, and `INSERT` appends.  Network and library
  effects (HTTP gets, feedparser, yt-dlp, instaloader, twscrape,
  BeautifulSoup extraction) are fields of an explicit `Env`, with `Except`
  results where the library call can raise.
* Python exceptions are `Except String` values; a `try/except` boundary in
  the source is a `match` on them.
-/

namespace FikirArka

/-! ## MD5 (`hashlib.md5(...).hexdigest()`)

A complete executable MD5 over byte lists, bytes and 32-bit words being
naturals reduced mod 2^32 where overflow matters. -/

namespace MD5

/-- Per-round left-rotation amounts of MD5. -/
def s_table : List Nat :=
  [7, 12, 17, 22, 7, 12, 17, 22, 7, 12, 17, 22, 7, 12, 17, 22,
   5, 9, 14, 20, 5, 9, 14, 20, 5, 9, 14, 20, 5, 9, 14, 20,
   4, 11, 16, 23, 4, 11, 16, 23, 4, 11, 16, 23, 4, 11, 16, 23,
   6, 10, 15, 21, 6, 10, 15, 21, 6, 10, 15, 21, 6, 10, 15, 21]

/-- The 64 MD5 additive constants (floor(2^32 * abs(sin(i+1)))). -/
def k_table : List Nat :=
  [0xd76aa478, 0xe8c7b756, 0x242070db, 0xc1bdceee,
   0xf57c0faf, 0x4787c62a, 0xa8304613, 0xfd469501,
   0x698098d8, 0x8b44f7af, 0xffff5bb1, 0x895cd7be,
   0x6b901122, 0xfd987193, 0xa679438e, 0x49b40821,
   0xf61e2562, 0xc040b340, 0x265e5a51, 0xe9b6c7aa,
   0xd62f105d, 0x02441453, 0xd8a1e681, 0xe7d3fbc8,
   0x21e1cde6, 0xc33707d6, 0xf4d50d87, 0x455a14ed,
   0xa9e3e905, 0xfcefa3f8, 0x676f02d9, 0x8d2a4c8a,
   0xfffa3942, 0x8771f681, 0x6d9d6122, 0xfde5380c,
   0xa4beea44, 0x4bdecfa9, 0xf6bb4b60, 0xbebfbc70,
   0x289b7ec6, 0xeaa127fa, 0xd4ef3085, 0x04881d05,
   0xd9d4d039, 0xe6db99e5, 0x1fa27cf8, 0xc4ac5665,
   0xf4292244, 0x432aff97, 0xab9423a7, 0xfc93a039,
   0x655b59c3, 0x8f0ccc92, 0xffeff47d, 0x85845dd1,
   0x6fa87e4f, 0xfe2ce6e0, 0xa3014314, 0x4e0811a1,
   0xf7537e82, 0xbd3af235, 0x2ad7d2bb, 0xeb86d391]

def mask32 : Nat := 0xffffffff

/-- 32-bit left rotation. -/
def rotl (x n : Nat) : Nat := ((x <<< n) ||| (x >>> (32 - n))) &&& mask32

/-- UTF-8 encoding of one character, as Python's `str.encode()` produces. -/
def utf8Bytes (c : Char) : List Nat :=
  let n := c.toNat
  if n < 0x80 then [n]
  else if n < 0x800 then
    [0xc0 ||| (n >>> 6), 0x80 ||| (n &&& 0x3f)]
  else if n < 0x10000 then
    [0xe0 ||| (n >>> 12), 0x80 ||| ((n >>> 6) &&& 0x3f), 0x80 ||| (n &&& 0x3f)]
  else
    [0xf0 ||| (n >>> 18), 0x80 ||| ((n >>> 12) &&& 0x3f),
     0x80 ||| ((n >>> 6) &&& 0x3f), 0x80 ||| (n &&& 0x3f)]

/-- The UTF-8 bytes of a string. -/
def strBytes (s : String) : List Nat := (s.data.map utf8Bytes).flatten

/-- MD5 padding: append 0x80, zero bytes until 56 mod 64, then the bit
length as a 64-bit little-endian quantity. -/
def padMessage (msg : List Nat) : List Nat :=
  let len := msg.length
  let bitLen := (8 * len) % 2 ^ 64
  let padZeros := (119 - len % 64) % 64
  msg ++ [0x80] ++ List.replicate padZeros 0 ++
    (List.range 8).map (fun i => (bitLen >>> (8 * i)) &&& 0xff)

/-- Decode one 64-byte chunk into 16 little-endian 32-bit words. -/
def wordsOfChunk (chunk : List Nat) : List Nat :=
  (List.range 16).map (fun i =>
    chunk.getD (4 * i) 0 ||| (chunk.getD (4 * i + 1) 0 <<< 8) |||
      (chunk.getD (4 * i + 2) 0 <<< 16) ||| (chunk.getD (4 * i + 3) 0 <<< 24))

/-- The round function and message index of round `i`. -/
def mixSelect (i b c d : Nat) : Nat × Nat :=
  if i < 16 then ((b &&& c) ||| ((b ^^^ mask32) &&& d), i)
  else if i < 32 then ((d &&& b) ||| ((d ^^^ mask32) &&& c), (5 * i + 1) % 16)
  else if i < 48 then (b ^^^ c ^^^ d, (3 * i + 5) % 16)
  else (c ^^^ (b ||| (d ^^^ mask32)), (7 * i) % 16)

/-- One MD5 round on the `(a, b, c, d)` state. -/
def md5Round (m : List Nat) (st : Nat × Nat × Nat × Nat) (i : Nat) :
    Nat × Nat × Nat × Nat :=
  let (a, b, c, d) := st
  let (f, g) := mixSelect i b c d
  let f' := (f + a + k_table.getD i 0 + m.getD g 0) &&& mask32
  (d, (b + rotl f' (s_table.getD i 0)) &&& mask32, b, c)

/-- Process one 64-byte chunk: 64 rounds, then add into the running state. -/
def processChunk (st : Nat × Nat × Nat × Nat) (chunk : List Nat) :
    Nat × Nat × Nat × Nat :=
  let m := wordsOfChunk chunk
  let (a, b, c, d) := (List.range 64).foldl (md5Round m) st
  let (a0, b0, c0, d0) := st
  ((a0 + a) &&& mask32, (b0 + b) &&& mask32, (c0 + c) &&& mask32,
   (d0 + d) &&& mask32)

/-- The 16 digest bytes of a byte message. -/
def md5Bytes (msg : List Nat) : List Nat :=
  let padded := padMessage msg
  let chunks := (List.range (padded.length / 64)).map
    (fun i => (padded.drop (64 * i)).take 64)
  let (a, b, c, d) :=
    chunks.foldl processChunk (0x67452301, 0xefcdab89, 0x98badcfe, 0x10325476)
  ([a, b, c, d].map (fun w => (List.range 4).map (fun i => (w >>> (8 * i)) &&& 0xff))).flatten

def hexDigit (n : Nat) : Char := "0123456789abcdef".data.getD n '0'

/-- Two lowercase hex digits of one byte. -/
def byteHex (b : Nat) : List Char := [hexDigit (b / 16), hexDigit (b % 16)]

end MD5

/-- `hashlib.md5(s.encode()).hexdigest()`: the lowercase 32-character hex MD5
digest of the UTF-8 bytes of `s`. -/
def md5hex (s : String) : String :=
  ⟨((MD5.md5Bytes (MD5.strBytes s)).map MD5.byteHex).flatten⟩

/-- Sanity: the digest of the empty string matches the published MD5 value. -/
theorem md5hex_empty : md5hex "" = "d41d8cd98f00b204e9800998ecf8427e" := by decide

/-- Sanity: the digest of `"abc"` matches the published MD5 test vector. -/
theorem md5hex_abc : md5hex "abc" = "900150983cd24fb0d6963f7d28e17f72" := by decide

/-! ## Python string primitives

Executable models of the `str` operations and the three fixed regular
expressions the scraper uses (`\s+`, `^(RE:|FW:|AW:)\s*`, `<[^>]+>`), plus
`re.search` of the literal-alternation patterns, which degenerates to
substring / suffix / capture-after-marker searches. -/

/-- Python `\s` (ASCII range): space, tab, newline, carriage return,
vertical tab, form feed. -/
def isPySpace (c : Char) : Bool :=
  c == ' ' || c == '\t' || c == '\n' || c == '\r' ||
    c == Char.ofNat 0x0b || c == Char.ofNat 0x0c

/-- ASCII lowercasing of one character (`str.lower` on the inputs used). -/
def lowerChar (c : Char) : Char :=
  if 65 ≤ c.toNat && c.toNat ≤ 90 then Char.ofNat (c.toNat + 32) else c

/-- `s.lower()`. -/
def pyLower (s : String) : String := ⟨s.data.map lowerChar⟩

/-- `s.strip()`: drop whitespace from both ends. -/
def pyStrip (s : String) : String :=
  ⟨((s.data.dropWhile isPySpace).reverse.dropWhile isPySpace).reverse⟩

/-- Python slicing `s[:n]`: the first `n` characters. -/
def pyTake (n : Nat) (s : String) : String := ⟨s.data.take n⟩

/-- Does `l` start with `p`? -/
def listStartsWith (p l : List Char) : Bool :=
  match p, l with
  | [], _ => true
  | _ :: _, [] => false
  | a :: p', b :: l' => a == b && listStartsWith p' l'

/-- Does `l` end with `p`? -/
def listEndsWith (p l : List Char) : Bool :=
  listStartsWith p.reverse l.reverse

/-- Python `needle in hay` on strings: contiguous-substring search. -/
def strContains (needle : String) (hay : String) : Bool :=
  go needle.data hay.data
where
  go (p : List Char) : List Char → Bool
    | [] => listStartsWith p []
    | l@(_ :: t) => listStartsWith p l || go p t

/-- Scanner for `re.sub(r"\s+", " ", ·)`: the flag records whether the
previous character was whitespace (already emitted as one space). -/
def collapseWsGo (inWs : Bool) : List Char → List Char
  | [] => []
  | c :: rest =>
    if isPySpace c then
      if inWs then collapseWsGo true rest else ' ' :: collapseWsGo true rest
    else c :: collapseWsGo false rest

/-- `re.sub(r"\s+", " ", ·)`: replace every maximal whitespace run by one
space. -/
def collapseWsL (l : List Char) : List Char := collapseWsGo false l

/-- `re.sub(r"^(RE:|FW:|AW:)\s*", "", ·, flags=re.IGNORECASE)`: remove one
leading reply/forward tag together with the whitespace after it. -/
def stripReplyTag (t : String) : String :=
  let low := (t.data.map lowerChar).take 3
  if low == "re:".data || low == "fw:".data || low == "aw:".data then
    ⟨(t.data.drop 3).dropWhile isPySpace⟩
  else t

/-- Scanner for `re.sub(r"<[^>]+>", "", ·)`.  `none`: outside a candidate
tag; `some buf`: a `<` was read, `buf` holds the (reversed) non-`>`
characters read since.  A `>` after at least one such character closes a
match and the whole span is dropped; `<>` and an unterminated `<` are kept
verbatim, exactly as the regex leaves them. -/
def stripTagsGo : Option (List Char) → List Char → List Char
  | none, [] => []
  | none, c :: rest =>
    if c == '<' then stripTagsGo (some []) rest else c :: stripTagsGo none rest
  | some buf, [] => '<' :: buf.reverse
  | some buf, c :: rest =>
    if c == '>' then
      if buf.isEmpty then '<' :: '>' :: stripTagsGo none rest
      else stripTagsGo none rest
    else stripTagsGo (some (c :: buf)) rest

/-- `re.sub(r"<[^>]+>", "", ·)`: delete every non-overlapping `<...>` span
holding at least one non-`>` character. -/
def stripTagsL (l : List Char) : List Char := stripTagsGo none l

/-- `re.search(marker + "([^/?]+)", url)`-style capture: at the leftmost
occurrence of `marker` followed by a nonempty run of characters outside
`stop`, return that run. -/
def findCapture (marker : String) (stop : List Char) (url : String) : Option String :=
  go url.data
where
  go : List Char → Option String
    | [] => none
    | l@(_ :: t) =>
      if listStartsWith marker.data l then
        let cap := (l.drop marker.data.length).takeWhile (fun c => !stop.contains c)
        if cap.isEmpty then go t else some ⟨cap⟩
      else go t

/-- Python `s.split(sep)` scanner (greedy left-to-right scan for
non-overlapping occurrences of the nonempty separator `c :: cs`), with a
structural fuel that the caller sets above the input length: each recursive
step consumes at least one input character. -/
def pySplitGo (c : Char) (cs : List Char) : Nat → List Char → List Char →
    List (List Char)
  | _, acc, [] => [acc.reverse]
  | 0, acc, l => [acc.reverse ++ l]
  | fuel + 1, acc, d :: rest =>
    if listStartsWith (c :: cs) (d :: rest) then
      acc.reverse :: pySplitGo c cs fuel [] (rest.drop cs.length)
    else pySplitGo c cs fuel (d :: acc) rest

/-- `s.split(sep)` (Python semantics; `sep` is nonempty at every use site). -/
def pySplit (sep : String) (s : String) : List String :=
  match sep.data with
  | [] => [s]
  | c :: cs => (pySplitGo c cs s.data.length [] s.data).map (fun l => (⟨l⟩ : String))

/-- Sanity: splitting behaves like Python `"a//b".split("/")`. -/
theorem pySplit_slashes : pySplit "/" "a//b" = ["a", "", "b"] := by decide

/-- Sanity: `"x.lower().strip()"`-style normalization example. -/
theorem pyStrip_lower_example : pyStrip (pyLower "  Hello WORLD \t") = "hello world" := by
  decide

/-! ## Data model

`app/models.py` (the columns the scraper reads or writes) and the scraper's
own value types.  `Topic.metadata` does not exist as a column — the
Instagram/Twitter code passes a `metadata=` keyword that lands on the
instance without being persisted — so it is absent here. -/

/-- A configured source row (`models.Source`), the fields the engine reads. -/
structure Source where
  name : String
  url : String
  platform : String
  source_type : String
  is_active : Bool := true
deriving DecidableEq

/-- A persisted content row (`models.Topic`), the fields the engine writes.
`publish_date` is in model days (see the header). -/
structure Topic where
  title : String
  description : String
  content : String
  platform : String
  source : String
  link : String
  publish_date : Int
  status : String := "pending"
  popularity_score : ℚ
  content_length : Nat
deriving DecidableEq

/-- The record store: the persisted `topics` table, in insertion order. -/
abbrev Db := List Topic

/-- The `ScrapingResult` dataclass of `scraper_service.py`. -/
structure ScrapingResult where
  success : Bool
  new_content_count : Nat
  error : Option String := none
  skipped_count : Nat := 0
  processed_count : Nat := 0
  source_name : String := ""
  rate_limited : Bool := false
deriving DecidableEq

/-- A feedparser entry: fields are optional exactly where the code guards
them with `.get`/`hasattr` (attribute access on a missing field raises).
`contentItems` lists the `value` strings of `entry.content`. -/
structure FeedEntry where
  title : Option String := none
  link : Option String := none
  summary : Option String := none
  contentItems : List String := []
  description : Option String := none
  published : Option Int := none
deriving DecidableEq

/-- An instaloader post (the attributes the code reads; instaloader defines
them all, so none is optional). -/
structure InstaPost where
  shortcode : String
  caption : Option String := none
  likes : Nat := 0
  comments : Nat := 0
  is_video : Bool := false
  date_utc : Int := 0
deriving DecidableEq

/-- The instaloader exceptions the code distinguishes. -/
inductive InstaError where
  | profile_not_exists
  | login_required
  | other (msg : String)
deriving DecidableEq

/-- A twscrape tweet (the attributes the code reads). -/
structure Tweet where
  id : Nat
  raw_content : String
  created_at : Option Int := none
deriving DecidableEq

/-- The mutable run-status dictionary `scraping_status` (wall-clock fields
omitted, see the header). -/
structure ScrapingStatus where
  status : String
  processed : Nat
  total : Nat
  current_source : String
  new_content_count : Nat
  errors : List String
deriving DecidableEq

/-- The external world of one run: the record/source store boundary and
every network or library effect, each `Except` where the call can raise.
`resolve_channel_id` folds together yt-dlp availability and the outcome of
its metadata extraction (`none` = unavailable, raised, or no `channel_id`).
`soup_title`/`soup_content` model `_extract_website_title` /
`_extract_website_content` applied to the parsed page. -/
structure Env where
  today : Int
  load_sources : Except String (List Source)
  commit_source : Source → Except String Unit
  http_get : String → Except String String
  parse_feed_text : String → List FeedEntry
  parse_feed_url : String → List FeedEntry
  resolve_channel_id : String → Option String
  soup_title : String → String
  soup_content : String → String
  instaloader_available : Bool
  insta_posts : String → Except InstaError (List InstaPost)
  twscrape_ready : Bool
  user_tweets : String → Except String (List Tweet)

/-! ## Content helpers (`scraper_service.py`, helper methods) -/

/-- The `quality_thresholds` dict set in `__init__`. -/
structure QualityThresholds where
  min_title_length : Nat
  min_content_length : Nat
  max_title_length : Nat
  max_content_length : Nat

def quality_thresholds : QualityThresholds :=
  { min_title_length := 10, min_content_length := 50,
    max_title_length := 300, max_content_length := 5000 }

/-- The three `(?i)(a|b|c)` spam regexes of `_is_content_quality_sufficient`:
alternations of literal phrases, so matching is case-insensitive substring
search for any of the nine phrases. -/
def spam_patterns : List String :=
  ["click here", "subscribe now", "follow us",
   "limited time", "act now", "urgent",
   "free gift", "100% free", "no cost"]

/-- Does any spam phrase occur in the text (case-insensitively)? -/
def has_spam (text : String) : Bool :=
  spam_patterns.any (fun p => strContains p (pyLower text))

/-- `_is_content_quality_sufficient`: the quality gate. -/
def is_content_quality_sufficient (title content : String) : Bool :=
  if title.length < quality_thresholds.min_title_length then false
  else if content.length < quality_thresholds.min_content_length then false
  else if title.length > quality_thresholds.max_title_length then false
  else if content.length > quality_thresholds.max_content_length then false
  else if has_spam (title ++ " " ++ content) then false
  else true

/-- `_generate_content_hash`: MD5 hex digest of
`f"{title.lower().strip()}{url.strip()}"`. -/
def generate_content_hash (title url : String) : String :=
  md5hex (pyStrip (pyLower title) ++ pyStrip url)

/-- `_clean_title`. -/
def clean_title (title : String) : String :=
  if title == "" then "Untitled"
  else
    let t : String := ⟨collapseWsL (pyStrip title).data⟩
    pyTake quality_thresholds.max_title_length (stripReplyTag t)

/-- `_clean_content`. -/
def clean_content (content : String) : String :=
  if content == "" then ""
  else
    let c : String := ⟨stripTagsL content.data⟩
    let c : String := ⟨collapseWsL (pyStrip c).data⟩
    pyTake quality_thresholds.max_content_length c

/-- `_extract_youtube_description`: prefer the first nonempty
`entry.content` value, else the summary. -/
def extract_youtube_description (e : FeedEntry) : String :=
  match e.contentItems.find? (fun v => v != "") with
  | some v => v
  | none => e.summary.getD ""

/-- `_extract_rss_content`: the longest of summary, `entry.content` values
and `entry.description`. -/
def extract_rss_content (e : FeedEntry) : String :=
  let c := e.summary.getD ""
  let c := e.contentItems.foldl
    (fun acc v => if v != "" && acc.length < v.length then v else acc) c
  match e.description with
  | some d => if c.length < d.length then d else c
  | none => c

/-- `_calculate_youtube_popularity`. -/
def calculate_youtube_popularity (today : Int) (e : FeedEntry) : ℚ :=
  let score : ℚ := (((e.summary.getD "").length : ℚ)) / 100
  let score : ℚ :=
    match e.published with
    | some pub =>
      let days_old : Int := today - pub
      if days_old < 7 then score + 50
      else if days_old < 30 then score + 25
      else score
    | none => score
  min score 100

/-- `_calculate_rss_popularity`. -/
def calculate_rss_popularity (today : Int) (e : FeedEntry) : ℚ :=
  let score : ℚ := (((extract_rss_content e).length : ℚ)) / 50
  let score : ℚ :=
    match e.published with
    | some pub =>
      let days_old : Int := today - pub
      if days_old < 3 then score + 30
      else if days_old < 14 then score + 15
      else score
    | none => score
  min score 100

/-- `_calculate_instagram_popularity` (every `hasattr` guard is true on an
instaloader post). -/
def calculate_instagram_popularity (today : Int) (p : InstaPost) : ℚ :=
  let score : ℚ := min ((p.likes : ℚ) / 100) 50
  let score : ℚ := score + min ((p.comments : ℚ) / 10) 25
  let score : ℚ :=
    let days_old : Int := today - p.date_utc
    if days_old < 1 then score + 20
    else if days_old < 7 then score + 10
    else score
  let score : ℚ := if p.is_video then score + 5 else score
  min score 100

/-- The inline twscrape popularity `min(len(content) / 10, 100)` of
`_scrape_twitter_enhanced`. -/
def twitter_twscrape_popularity (content : String) : ℚ :=
  min ((content.length : ℚ) / 10) 100

/-- The inline website popularity `len(content) // 10` of
`_scrape_website_enhanced` (integer floor division, no cap). -/
def website_popularity (content : String) : ℚ :=
  ((content.length / 10 : ℕ) : ℚ)

/-- `_extract_instagram_profile`: first capture of
`instagram\.com/([^/?]+)`; any post URL (`/p/` in it) yields `None`.  (The
second pattern of the source, `instagram\.com/p/([^/?]+)`, can only match
where the first already matched, so it is unreachable.) -/
def extract_instagram_profile (url : String) : Option String :=
  match findCapture "instagram.com/" ['/', '?'] url with
  | some profile => if strContains "/p/" url then none else some profile
  | none => none

/-- The username segments `_extract_twitter_username` rejects. -/
def twitter_blacklist : List String :=
  ["home", "search", "explore", "notifications", "messages", "i", "settings"]

/-- `_extract_twitter_username`: try `twitter\.com/([^/?]+)` then
`x\.com/([^/?]+)`; a blacklisted capture moves on to the next pattern. -/
def extract_twitter_username (url : String) : Option String :=
  let tryX : Option String :=
    match findCapture "x.com/" ['/', '?'] url with
    | some u => if twitter_blacklist.contains (pyLower u) then none else some u
    | none => none
  match findCapture "twitter.com/" ['/', '?'] url with
  | some u => if twitter_blacklist.contains (pyLower u) then tryX else some u
  | none => tryX

/-- `youtube_url.split('/channel/')[-1].split('/')[0].split('?')[0]`. -/
def extract_channel_id (url : String) : String :=
  ((pySplit "?" (((pySplit "/" ((pySplit "/channel/" url).getLastD "")).headD ""))).headD "")

/-- `youtube_url.split('list=')[-1].split('&')[0]`. -/
def extract_playlist_id (url : String) : String :=
  (pySplit "&" ((pySplit "list=" url).getLastD "")).headD ""

/-- `_get_youtube_rss_url`: URL-to-feed derivation.  `resolve` is the
yt-dlp channel-id resolution of the environment. -/
def get_youtube_rss_url (resolve : String → Option String) (url : String) :
    Option String :=
  if strContains "feeds/videos.xml" url then some url
  else if strContains "/channel/" url then
    some ("https://www.youtube.com/feeds/videos.xml?channel_id=" ++ extract_channel_id url)
  else if strContains "playlist?list=" url then
    some ("https://www.youtube.com/feeds/videos.xml?playlist_id=" ++ extract_playlist_id url)
  else if strContains "/watch?v=" url || strContains "youtu.be/" url then
    match resolve url with
    | some cid => some ("https://www.youtube.com/feeds/videos.xml?channel_id=" ++ cid)
    | none => none
  else if strContains "/c/" url || strContains "/user/" url ||
      strContains "youtube.com/@" url then
    match resolve url with
    | some cid => some ("https://www.youtube.com/feeds/videos.xml?channel_id=" ++ cid)
    | none => none
  else none

/-- Sanity: the channel-id extraction on a plain channel URL. -/
theorem extract_channel_id_example :
    extract_channel_id "https://www.youtube.com/channel/UCabc123/videos" = "UCabc123" := by
  decide

/-! ## Fetch strategies

One function per `_scrape_*_enhanced` method.  Each strategy takes the
environment, the current record store and the source, and returns the typed
result together with the store after its inserts (each insert is committed
per entry in the source, so inserts made before a mid-loop exception
persist). -/

/-- Per-source loop counters (`new_content_count` / `skipped_count` /
`processed_count` locals). -/
structure LoopCounts where
  new_content : Nat := 0
  skipped : Nat := 0
  processed : Nat := 0
deriving DecidableEq

/-- `Topic.link == entry.get('link')` in SQL: comparing the non-null
`link` column with SQL `NULL` (a missing entry link) matches no row. -/
def link_matches (tlink : String) (elink : Option String) : Bool :=
  match elink with
  | some l => tlink == l
  | none => false

/-! ### RSS (`_scrape_rss_enhanced`) -/

/-- The duplicate probe of the RSS loop:
`(Topic.link == entry.get('link')) | (Topic.description == content_hash)`. -/
def rss_is_duplicate (db : Db) (e : FeedEntry) (hash : String) : Bool :=
  db.any (fun t => link_matches t.link e.link || t.description == hash)

/-- The `Topic(...)` row the RSS loop inserts for an entry. -/
def rss_topic_of (today : Int) (src : Source) (e : FeedEntry) : Topic :=
  let title := e.title.getD "Untitled"
  let content := extract_rss_content e
  { title := clean_title title,
    description := generate_content_hash title (e.link.getD ""),
    content := clean_content content,
    platform := src.platform,
    source := src.name,
    link := e.link.getD "",
    publish_date := e.published.getD today,
    popularity_score := calculate_rss_popularity today e,
    content_length := content.length }

/-- One iteration of the RSS entry loop. -/
def rss_entry_step (today : Int) (src : Source) (st : Db × LoopCounts)
    (e : FeedEntry) : Db × LoopCounts :=
  let db := st.1
  let c := { st.2 with processed := st.2.processed + 1 }
  let title := e.title.getD "Untitled"
  let content := extract_rss_content e
  if !is_content_quality_sufficient title content then
    (db, { c with skipped := c.skipped + 1 })
  else
    let hash := generate_content_hash title (e.link.getD "")
    if rss_is_duplicate db e hash then
      (db, { c with skipped := c.skipped + 1 })
    else
      (db ++ [rss_topic_of today src e], { c with new_content := c.new_content + 1 })

/-- `_scrape_rss_enhanced`: HTTP get (raising on network/status errors),
feedparser, then the entry loop capped at 20. -/
def scrape_rss_enhanced (env : Env) (db : Db) (src : Source) :
    ScrapingResult × Db :=
  match env.http_get src.url with
  | .error e =>
    ({ success := false, new_content_count := 0, error := some e,
       source_name := src.name }, db)
  | .ok body =>
    let entries := env.parse_feed_text body
    if entries.isEmpty then
      ({ success := true, new_content_count := 0, source_name := src.name }, db)
    else
      let r := (entries.take 20).foldl (rss_entry_step env.today src) (db, {})
      ({ success := true, new_content_count := r.2.new_content,
         skipped_count := r.2.skipped, processed_count := r.2.processed,
         source_name := src.name }, r.1)

/-! ### YouTube (`_scrape_youtube_enhanced`)

The loop reads `entry.title` and `entry.link` as attributes, which raise
`AttributeError` when missing; the exception aborts the loop (keeping the
inserts already committed) and the strategy's own `except` converts it to a
failed result.  The loop functions therefore thread an `Option String`
pending-exception value. -/

/-- The `Topic(...)` row the YouTube loop inserts for an entry with title
`ti` and link `li`. -/
def youtube_topic_of (today : Int) (src : Source) (e : FeedEntry)
    (ti li : String) : Topic :=
  let desc := extract_youtube_description e
  { title := clean_title ti,
    description := generate_content_hash ti li,
    content := clean_content desc,
    platform := "YouTube",
    source := src.name,
    link := li,
    publish_date := e.published.getD today,
    popularity_score := calculate_youtube_popularity today e,
    content_length := desc.length }

/-- One iteration of the YouTube entry loop (third component: the raised
exception, if any). -/
def youtube_entry_step (today : Int) (src : Source) (db : Db) (c0 : LoopCounts)
    (e : FeedEntry) : Db × LoopCounts × Option String :=
  let c := { c0 with processed := c0.processed + 1 }
  match e.title with
  | none => (db, c, some "object has no attribute 'title'")
  | some ti =>
    if !is_content_quality_sufficient ti (e.summary.getD "") then
      (db, { c with skipped := c.skipped + 1 }, none)
    else
      match e.link with
      | none => (db, c, some "object has no attribute 'link'")
      | some li =>
        let hash := generate_content_hash ti li
        if db.any (fun t => t.link == li) then
          (db, { c with skipped := c.skipped + 1 }, none)
        else if db.any (fun t => t.description == hash) then
          (db, { c with skipped := c.skipped + 1 }, none)
        else
          (db ++ [youtube_topic_of today src e ti li],
           { c with new_content := c.new_content + 1 }, none)

/-- The YouTube entry loop: stops at the first raised exception. -/
def youtube_loop (today : Int) (src : Source) :
    List FeedEntry → Db → LoopCounts → Db × LoopCounts × Option String
  | [], db, c => (db, c, none)
  | e :: rest, db, c =>
    let r := youtube_entry_step today src db c e
    match r.2.2 with
    | some err => (r.1, r.2.1, some err)
    | none => youtube_loop today src rest r.1 r.2.1

/-- `_scrape_youtube_enhanced`: derive the feed URL, parse it, run the loop
capped at 15. -/
def scrape_youtube_enhanced (env : Env) (db : Db) (src : Source) :
    ScrapingResult × Db :=
  match get_youtube_rss_url env.resolve_channel_id src.url with
  | none =>
    ({ success := false, new_content_count := 0,
       error := some "Could not convert YouTube URL to RSS feed",
       source_name := src.name }, db)
  | some rss_url =>
    let entries := env.parse_feed_url rss_url
    if entries.isEmpty then
      ({ success := true, new_content_count := 0, source_name := src.name }, db)
    else
      let r := youtube_loop env.today src (entries.take 15) db {}
      match r.2.2 with
      | some err =>
        ({ success := false, new_content_count := 0, error := some err,
           source_name := src.name }, r.1)
      | none =>
        ({ success := true, new_content_count := r.2.1.new_content,
           skipped_count := r.2.1.skipped, processed_count := r.2.1.processed,
           source_name := src.name }, r.1)

/-! ### Instagram (`_scrape_instagram_enhanced`) -/

/-- `f"https://www.instagram.com/p/{post.shortcode}/"`. -/
def instagram_post_url (p : InstaPost) : String :=
  "https://www.instagram.com/p/" ++ p.shortcode ++ "/"

/-- The `Topic(...)` row the Instagram loop inserts for a post.  Note the
`description` hashes the *full* caption while the title truncates it to 100
characters; the unmapped `metadata=` keyword is not a column and is not
persisted. -/
def instagram_topic_of (today : Int) (src : Source) (profile : String)
    (p : InstaPost) : Topic :=
  let caption := p.caption.getD ""
  let post_url := instagram_post_url p
  { title := clean_title
      (if caption != "" then pyTake 100 caption else "Instagram Post by @" ++ profile),
    description := generate_content_hash caption post_url,
    content := clean_content caption,
    platform := "Instagram",
    source := src.name,
    link := post_url,
    publish_date := p.date_utc,
    popularity_score := calculate_instagram_popularity today p,
    content_length := caption.length }

/-- One iteration of the Instagram post loop (state: store, `new_posts`,
`processed_posts`).  The duplicate probe consults only `Topic.link`; there
is no fingerprint probe on this path, and a skip increments no counter. -/
def instagram_post_step (today : Int) (src : Source) (profile : String)
    (st : Db × Nat × Nat) (p : InstaPost) : Db × Nat × Nat :=
  let db := st.1
  let new_posts := st.2.1
  let processed := st.2.2 + 1
  let post_url := instagram_post_url p
  if db.any (fun t => t.link == post_url) then (db, new_posts, processed)
  else
    let caption := p.caption.getD ""
    if !is_content_quality_sufficient (pyTake 100 caption) caption then
      (db, new_posts, processed)
    else
      (db ++ [instagram_topic_of today src profile p], new_posts + 1, processed)

/-- `_scrape_instagram_enhanced`: availability gate, profile extraction,
instaloader fetch (its two named exceptions produce the two dedicated
messages, any other exception reaches the outer `except`), then the post
loop capped at 10. -/
def scrape_instagram_enhanced (env : Env) (db : Db) (src : Source) :
    ScrapingResult × Db :=
  if !env.instaloader_available then
    ({ success := false, new_content_count := 0, source_name := src.name,
       error := some "Instaloader not available - please install: pip install instaloader" }, db)
  else
    match extract_instagram_profile src.url with
    | none =>
      ({ success := false, new_content_count := 0, source_name := src.name,
         error := some "Could not extract Instagram profile name from URL" }, db)
    | some profile =>
      match env.insta_posts profile with
      | .error .profile_not_exists =>
        ({ success := false, new_content_count := 0, source_name := src.name,
           error := some ("Instagram profile '" ++ profile ++ "' not found") }, db)
      | .error .login_required =>
        ({ success := false, new_content_count := 0, source_name := src.name,
           error := some "Instagram profile is private - login required" }, db)
      | .error (.other msg) =>
        ({ success := false, new_content_count := 0, error := some msg,
           source_name := src.name }, db)
      | .ok posts =>
        let r :=
          (posts.take 10).foldl (instagram_post_step env.today src profile) (db, 0, 0)
        ({ success := true, new_content_count := r.2.1,
           processed_count := r.2.2, source_name := src.name }, r.1)

/-! ### Twitter (`_scrape_twitter_enhanced`)

`EnhancedScraperService` never sets a `self.logger` attribute, but the
twscrape branch reads `self.logger.info` after its loop and
`self.logger.warning` inside its `except` handler.  So whenever the
twscrape branch is taken, an `AttributeError` is raised after the loop (or
re-raised from the handler), reaches the outer `except`, and the branch
returns a failed result carrying that message — while keeping every insert
its loop committed.  `SCRAPLING_AVAILABLE` is the literal `False`, so the
only other path is the Nitter fallback. -/

/-- The `str(AttributeError)` of the missing `self.logger` attribute. -/
def no_logger_error : String :=
  "'EnhancedScraperService' object has no attribute 'logger'"

/-- `f"https://twitter.com/{username}/status/{tw.id}"`. -/
def twscrape_tweet_link (username : String) (tw : Tweet) : String :=
  "https://twitter.com/" ++ username ++ "/status/" ++ toString tw.id

/-- The `Topic(...)` row the twscrape loop inserts for a tweet. -/
def twscrape_topic_of (today : Int) (src : Source) (username : String)
    (tw : Tweet) : Topic :=
  let title := pyTake 100 tw.raw_content
  let link := twscrape_tweet_link username tw
  { title := clean_title title,
    description := generate_content_hash title link,
    content := clean_content tw.raw_content,
    platform := "Twitter",
    source := src.name,
    link := link,
    publish_date := tw.created_at.getD today,
    popularity_score := twitter_twscrape_popularity tw.raw_content,
    content_length := tw.raw_content.length }

/-- One iteration of the twscrape tweet loop (state: store, `new_tweets`,
`processed_tweets`). -/
def twscrape_tweet_step (today : Int) (src : Source) (username : String)
    (st : Db × Nat × Nat) (tw : Tweet) : Db × Nat × Nat :=
  let db := st.1
  let new_tweets := st.2.1
  let processed := st.2.2 + 1
  let title := pyTake 100 tw.raw_content
  if !is_content_quality_sufficient title tw.raw_content then
    (db, new_tweets, processed)
  else
    let link := twscrape_tweet_link username tw
    let hash := generate_content_hash title link
    if db.any (fun t => t.link == link || t.description == hash) then
      (db, new_tweets, processed)
    else
      (db ++ [twscrape_topic_of today src username tw], new_tweets + 1, processed)

/-- The `Topic(...)` row the Nitter fallback loop inserts for an entry. -/
def nitter_topic_of (today : Int) (src : Source) (e : FeedEntry) : Topic :=
  let title := e.title.getD ""
  let content := e.summary.getD ""
  let link := e.link.getD src.url
  { title := clean_title title,
    description := generate_content_hash title link,
    content := clean_content content,
    platform := "Twitter",
    source := src.name,
    link := link,
    publish_date := e.published.getD today,
    popularity_score := calculate_rss_popularity today e,
    content_length := content.length }

/-- One iteration of the Nitter fallback entry loop. -/
def nitter_entry_step (today : Int) (src : Source) (st : Db × Nat × Nat)
    (e : FeedEntry) : Db × Nat × Nat :=
  let db := st.1
  let new_items := st.2.1
  let processed := st.2.2 + 1
  let title := e.title.getD ""
  let content := e.summary.getD ""
  if !is_content_quality_sufficient title content then
    (db, new_items, processed)
  else
    let link := e.link.getD src.url
    let hash := generate_content_hash title link
    if db.any (fun t => t.link == link || t.description == hash) then
      (db, new_items, processed)
    else
      (db ++ [nitter_topic_of today src e], new_items + 1, processed)

/-- `_scrape_twitter_fallback`: the Nitter RSS chain
(`https://nitter.net/<username>/rss`), its loop capped at 10. -/
def scrape_twitter_fallback (env : Env) (db : Db) (src : Source)
    (username : String) : ScrapingResult × Db :=
  let entries := env.parse_feed_url ("https://nitter.net/" ++ username ++ "/rss")
  if entries.isEmpty then
    ({ success := false, new_content_count := 0, source_name := src.name,
       error := some "Nitter RSS boş döndü veya erişilemedi" }, db)
  else
    let r := (entries.take 10).foldl (nitter_entry_step env.today src) (db, 0, 0)
    ({ success := true, new_content_count := r.2.1,
       processed_count := r.2.2, source_name := src.name }, r.1)

/-- `_scrape_twitter_enhanced`.  `env.twscrape_ready` is
`TWSCRAPE_AVAILABLE and self.twitter_api and self.twitter_api.pool.is_logged_in`;
`env.user_tweets` already carries the API's `limit=10`. -/
def scrape_twitter_enhanced (env : Env) (db : Db) (src : Source) :
    ScrapingResult × Db :=
  match extract_twitter_username src.url with
  | none =>
    ({ success := false, new_content_count := 0, source_name := src.name,
       error := some "Could not extract Twitter username from URL" }, db)
  | some username =>
    if env.twscrape_ready then
      match env.user_tweets username with
      | .ok tweets =>
        let r := tweets.foldl (twscrape_tweet_step env.today src username) (db, 0, 0)
        ({ success := false, new_content_count := 0,
           error := some no_logger_error, source_name := src.name }, r.1)
      | .error _ =>
        ({ success := false, new_content_count := 0,
           error := some no_logger_error, source_name := src.name }, db)
    else scrape_twitter_fallback env db src username

/-! ### Website (`_scrape_website_enhanced`)

`SCRAPLING_AVAILABLE` is the literal `False`, so only the traditional
requests + BeautifulSoup path is live. -/

/-- The `Topic(...)` row the website strategy inserts. -/
def website_topic_of (today : Int) (src : Source) (title content : String) :
    Topic :=
  { title := clean_title title,
    description := generate_content_hash title src.url,
    content := clean_content content,
    platform := "Website",
    source := src.name,
    link := src.url,
    publish_date := today,
    popularity_score := website_popularity content,
    content_length := content.length }

/-- `_scrape_website_enhanced`.  A quality rejection returns `success=True`
with an explanatory `error` string and inserts nothing. -/
def scrape_website_enhanced (env : Env) (db : Db) (src : Source) :
    ScrapingResult × Db :=
  match env.http_get src.url with
  | .error e =>
    ({ success := false, new_content_count := 0, error := some e,
       source_name := src.name }, db)
  | .ok html =>
    let title := env.soup_title html
    let content := env.soup_content html
    if !is_content_quality_sufficient title content then
      ({ success := true, new_content_count := 0, source_name := src.name,
         error := some "Content quality below threshold" }, db)
    else
      let hash := generate_content_hash title src.url
      if db.any (fun t => t.link == src.url || t.description == hash) then
        ({ success := true, new_content_count := 0, skipped_count := 1,
           source_name := src.name }, db)
      else
        ({ success := true, new_content_count := 1, processed_count := 1,
           source_name := src.name },
         db ++ [website_topic_of env.today src title content])

/-! ### Dispatch (`_scrape_source_enhanced`) -/

/-- `re.search(r"(\.rss$|\.xml$|/feed/?$)", url, re.IGNORECASE)`: the URL
string ends (case-insensitively) with `.rss`, `.xml`, `/feed` or `/feed/`. -/
def url_indicates_feed (url : String) : Bool :=
  let l := (pyLower url).data
  listEndsWith ".rss".data l || listEndsWith ".xml".data l ||
    listEndsWith "/feed".data l || listEndsWith "/feed/".data l

/-- The platform label actually dispatched on: lowercased, with the
website-to-RSS override when the URL indicates a feed. -/
def effective_platform (src : Source) : String :=
  let platform := pyLower src.platform
  if platform == "website" && url_indicates_feed src.url then "rss" else platform

/-- The platform dispatch, the unsupported-platform branch raising. -/
def scrape_source_dispatch (env : Env) (db : Db) (src : Source) :
    Except String (ScrapingResult × Db) :=
  let platform := effective_platform src
  if platform == "youtube" then .ok (scrape_youtube_enhanced env db src)
  else if platform == "rss" || platform == "blog" || platform == "rss/blog" then
    .ok (scrape_rss_enhanced env db src)
  else if platform == "instagram" then .ok (scrape_instagram_enhanced env db src)
  else if platform == "twitter" || platform == "x" then
    .ok (scrape_twitter_enhanced env db src)
  else if platform == "website" then .ok (scrape_website_enhanced env db src)
  else .error ("Unsupported platform: " ++ src.platform)

/-- `_scrape_source_enhanced`: the per-source boundary; its `except`
converts any raised exception into a failed result. -/
def scrape_source_enhanced (env : Env) (db : Db) (src : Source) :
    ScrapingResult × Db :=
  match scrape_source_dispatch env db src with
  | .ok r => r
  | .error e =>
    ({ success := false, new_content_count := 0, error := some e,
       source_name := src.name }, db)

/-! ## The run orchestrator (`scrape_all_sources`) and its callers -/

/-- The structured run summary (wall-clock and per-platform breakdown
fields omitted, see the header; a branch that leaves a key out of its dict
leaves the field at its default here). -/
structure RunResponse where
  success : Bool
  message : String := ""
  error : Option String := none
  total_new_content : Nat := 0
  sources_processed : Nat := 0
  total_sources : Nat := 0
  errors : List String := []
  error_count : Nat := 0
deriving DecidableEq

/-- How Python renders `result.error` inside the f-string error message. -/
def option_str : Option String → String
  | some s => s
  | none => "None"

/-- `f"{source.name} ({source.platform}): {result.error}"`. -/
def run_error_string (src : Source) (r : ScrapingResult) : String :=
  src.name ++ " (" ++ src.platform ++ "): " ++ option_str r.error

/-- The loop state of `scrape_all_sources` (store, status object, and the
`total_new_content` / `sources_processed` / `errors` locals). -/
structure RunSt where
  db : Db
  status : ScrapingStatus
  total_new_content : Nat
  sources_processed : Nat
  errors : List String

/-- One iteration of the source loop: progress update, rate limiting
(time-free here), the per-source scrape, then either the counter / source
bookkeeping (whose store commit `env.commit_source` may raise, landing in
the loop's own `except`) or the error bookkeeping. -/
def process_one_source (env : Env) (st : RunSt) (src : Source) : RunSt :=
  let status := { st.status with processed := st.status.processed + 1,
                                 current_source := src.name }
  let rd := scrape_source_enhanced env st.db src
  let r := rd.1
  let db' := rd.2
  if r.success then
    let total_new := st.total_new_content + r.new_content_count
    let status := { status with new_content_count := total_new }
    match env.commit_source src with
    | .ok _ =>
      { db := db', status := status, total_new_content := total_new,
        sources_processed := st.sources_processed + 1, errors := st.errors }
    | .error e =>
      let msg := src.name ++ ": Unexpected error - " ++ e
      { db := db', status := { status with errors := status.errors ++ [msg] },
        total_new_content := total_new,
        sources_processed := st.sources_processed + 1,
        errors := st.errors ++ [msg] }
  else
    let msg := run_error_string src r
    { db := db', status := { status with errors := status.errors ++ [msg] },
      total_new_content := st.total_new_content,
      sources_processed := st.sources_processed,
      errors := st.errors ++ [msg] }

/-- `scrape_all_sources`: reset the status to `running`, load the active
sources (the only fatal raise point), early-return on an empty list
(leaving the status untouched), else run the loop and mark the status
`completed`.  Returns the response, the final status object and the final
store. -/
def scrape_all_sources (env : Env) (db : Db) :
    RunResponse × ScrapingStatus × Db :=
  let status0 : ScrapingStatus :=
    { status := "running", processed := 0, total := 0,
      current_source := "Başlatılıyor...", new_content_count := 0, errors := [] }
  match env.load_sources with
  | .error e =>
    ({ success := false, error := some ("Fatal error during scraping: " ++ e),
       errors := [e] },
     { status0 with status := "failed", errors := ["Fatal error: " ++ e] }, db)
  | .ok sources =>
    if sources.isEmpty then
      ({ success := true, message := "No active sources found" }, status0, db)
    else
      let st0 : RunSt :=
        { db := db, status := { status0 with total := sources.length },
          total_new_content := 0, sources_processed := 0, errors := [] }
      let fin := sources.foldl (process_one_source env) st0
      ({ success := true, message := "Scraping completed successfully",
         total_new_content := fin.total_new_content,
         sources_processed := fin.sources_processed,
         total_sources := sources.length,
         errors := fin.errors, error_count := fin.errors.length },
       { fin.status with status := "completed" }, fin.db)

/-- The JSON body `POST /api/scrape/trigger` returns (static fields
omitted). -/
structure TriggerResponse where
  success : Bool
  message : String
  status : String
deriving DecidableEq

/-- `trigger_manual_scrape` of `main.py`: unconditionally reset the shared
status object and hand `scrape_all_sources` to the background task queue.
The handler never reads the current status — the returned triple is the
HTTP response, the status object it wrote, and whether a new background run
was scheduled (always `true`). -/
def trigger_manual_scrape (_current : ScrapingStatus) :
    TriggerResponse × ScrapingStatus × Bool :=
  ({ success := true, message := "🚀 Gelişmiş kazıma sistemi başlatıldı",
     status := "started" },
   { status := "starting", processed := 0, total := 0,
     current_source := "Initializing...", new_content_count := 0, errors := [] },
   true)

/-- `SchedulerService.trigger_manual_scrape`: likewise guard-free — it
always `asyncio.create_task`s a new run and reports success.  Components:
(returned `success`, a new run task was scheduled). -/
def scheduler_trigger_manual_scrape : Bool × Bool := (true, true)

/-! ## Concrete fixtures for witnesses and counterexamples -/

/-- A baseline environment: no active sources, every network call failing. -/
def env0 : Env :=
  { today := 20000,
    load_sources := .ok [],
    commit_source := fun _ => .ok (),
    http_get := fun _ => .error "connection timeout",
    parse_feed_text := fun _ => [],
    parse_feed_url := fun _ => [],
    resolve_channel_id := fun _ => none,
    soup_title := fun _ => "",
    soup_content := fun _ => "",
    instaloader_available := true,
    insta_posts := fun _ => .error (.other "network error"),
    twscrape_ready := false,
    user_tweets := fun _ => .error "no account pool" }

/-! ## The claims -/

/-- **C2** (evidence of the code bug): the manual scrape trigger of
`main.py` consults the current run state nowhere — for *every* current
status, including one whose state is `"running"`, it reports success,
resets the shared status object to `"starting"`, and schedules a fresh
background `scrape_all_sources` task (third component `true`); the
scheduler's manual trigger is equally guard-free.  A request arriving
mid-run is therefore neither rejected nor queued: a second interleaved run
starts. -/
theorem manual_trigger_ignores_running_state :
    ∀ current : ScrapingStatus,
      (trigger_manual_scrape current).1.success = true ∧
      (trigger_manual_scrape current).2.1.status = "starting" ∧
      (trigger_manual_scrape current).2.2 = true ∧
      scheduler_trigger_manual_scrape = (true, true) := by
  intro _
  exact ⟨rfl, rfl, rfl, rfl⟩

/-- **C7** (evidence of the code bug): a run over an empty active-source
list returns a successful summary but takes the early `return` *before*
the `status = "completed"` assignment, so the shared status object is left
in state `"running"` forever instead of moving to `"completed"`. -/
theorem empty_run_leaves_status_running :
    (scrape_all_sources env0 []).1.success = true ∧
    (scrape_all_sources env0 []).1.message = "No active sources found" ∧
    (scrape_all_sources env0 []).2.1.status = "running" := by
  exact ⟨rfl, rfl, rfl⟩

/-- **C5**: the quality gate accepts a spam-free title of exactly the
minimum length 10 with a spam-free body of exactly the minimum length 50,
accepts exactly the maximum lengths 300 and 5000, and rejects any input in
which either field is one character shorter than its minimum or one
character longer than its maximum. -/
theorem quality_gate_boundary :
    (∀ title content : String, title.length = 10 → content.length = 50 →
       has_spam (title ++ " " ++ content) = false →
       is_content_quality_sufficient title content = true) ∧
    (∀ title content : String, title.length = 300 → content.length = 5000 →
       has_spam (title ++ " " ++ content) = false →
       is_content_quality_sufficient title content = true) ∧
    (∀ title content : String, title.length = 9 →
       is_content_quality_sufficient title content = false) ∧
    (∀ title content : String, title.length = 301 →
       is_content_quality_sufficient title content = false) ∧
    (∀ title content : String, content.length = 49 →
       is_content_quality_sufficient title content = false) ∧
    (∀ title content : String, content.length = 5001 →
       is_content_quality_sufficient title content = false) := by
  refine ⟨?_, ?_, ?_, ?_, ?_, ?_⟩
  · intro t c h1 h2 hs
    simp [is_content_quality_sufficient, quality_thresholds, h1, h2, hs]
  · intro t c h1 h2 hs
    simp [is_content_quality_sufficient, quality_thresholds, h1, h2, hs]
  · intro t c h1
    simp [is_content_quality_sufficient, quality_thresholds, h1]
  · intro t c h1
    simp [is_content_quality_sufficient, quality_thresholds, h1]
  · intro t c h1
    by_cases ht : t.length < 10 <;>
      simp [is_content_quality_sufficient, quality_thresholds, h1, ht]
  · intro t c h1
    by_cases ht : t.length < 10 <;>
      by_cases ht' : t.length > 300 <;>
        simp [is_content_quality_sufficient, quality_thresholds, h1, ht, ht']

/-- Witness for C5, at the minimum boundary: a concrete 10-character title
and 50-character body with no spam phrase are accepted. -/
theorem quality_gate_boundary_witness :
    (("abcdefghij" : String).length = 10 ∧
     (String.mk (List.replicate 50 'b')).length = 50 ∧
     has_spam ("abcdefghij" ++ " " ++ String.mk (List.replicate 50 'b')) = false) ∧
    is_content_quality_sufficient "abcdefghij" (String.mk (List.replicate 50 'b')) = true := by
  exact ⟨⟨by decide, by decide, by decide⟩,
    quality_gate_boundary.1 _ _ (by decide) (by decide) (by decide)⟩

/-! ### C3: the fetch boundary never lets an exception escape -/

theorem rss_failure_has_error (env : Env) (db : Db) (src : Source) :
    (scrape_rss_enhanced env db src).1.success = false →
    ((scrape_rss_enhanced env db src).1.error).isSome = true := by
  unfold scrape_rss_enhanced
  rcases env.http_get src.url with e | body
  · simp
  · by_cases hemp : (env.parse_feed_text body).isEmpty <;> simp [hemp]

theorem youtube_failure_has_error (env : Env) (db : Db) (src : Source) :
    (scrape_youtube_enhanced env db src).1.success = false →
    ((scrape_youtube_enhanced env db src).1.error).isSome = true := by
  unfold scrape_youtube_enhanced
  rcases get_youtube_rss_url env.resolve_channel_id src.url with _ | rss_url
  · simp
  · by_cases hemp : (env.parse_feed_url rss_url).isEmpty
    · simp [hemp]
    · simp only [hemp]
      rcases (youtube_loop env.today src ((env.parse_feed_url rss_url).take 15) db {}).2.2
        with _ | err <;> simp

theorem instagram_failure_has_error (env : Env) (db : Db) (src : Source) :
    (scrape_instagram_enhanced env db src).1.success = false →
    ((scrape_instagram_enhanced env db src).1.error).isSome = true := by
  unfold scrape_instagram_enhanced
  by_cases hav : env.instaloader_available
  · rcases extract_instagram_profile src.url with _ | profile
    · simp [hav]
    · rcases hp : env.insta_posts profile with err | posts
      · rcases err <;> simp [hav, hp]
      · simp [hav, hp]
  · simp [hav]

theorem twitter_fallback_failure_has_error (env : Env) (db : Db) (src : Source)
    (username : String) :
    (scrape_twitter_fallback env db src username).1.success = false →
    ((scrape_twitter_fallback env db src username).1.error).isSome = true := by
  unfold scrape_twitter_fallback
  by_cases hemp :
      (env.parse_feed_url ("https://nitter.net/" ++ username ++ "/rss")).isEmpty <;>
    simp [hemp]

theorem twitter_failure_has_error (env : Env) (db : Db) (src : Source) :
    (scrape_twitter_enhanced env db src).1.success = false →
    ((scrape_twitter_enhanced env db src).1.error).isSome = true := by
  unfold scrape_twitter_enhanced
  rcases extract_twitter_username src.url with _ | username
  · simp
  · by_cases hr : env.twscrape_ready
    · rcases ht : env.user_tweets username with e | tweets <;> simp [hr, ht]
    · simp only [hr, Bool.false_eq_true, if_false]
      exact twitter_fallback_failure_has_error env db src username

theorem website_failure_has_error (env : Env) (db : Db) (src : Source) :
    (scrape_website_enhanced env db src).1.success = false →
    ((scrape_website_enhanced env db src).1.error).isSome = true := by
  unfold scrape_website_enhanced
  rcases env.http_get src.url with e | html
  · simp
  · by_cases hq : is_content_quality_sufficient (env.soup_title html) (env.soup_content html)
    · by_cases hd : db.any (fun t => t.link == src.url ||
          t.description == generate_content_hash (env.soup_title html) src.url) <;>
        simp [hq, hd]
    · simp [hq]

/-- The supported effective platform labels of the dispatch chain. -/
def supported_platforms : List String :=
  ["youtube", "rss", "blog", "rss/blog", "instagram", "twitter", "x", "website"]

theorem dispatch_cases (env : Env) (db : Db) (src : Source) :
    scrape_source_dispatch env db src = .ok (scrape_youtube_enhanced env db src) ∨
    scrape_source_dispatch env db src = .ok (scrape_rss_enhanced env db src) ∨
    scrape_source_dispatch env db src = .ok (scrape_instagram_enhanced env db src) ∨
    scrape_source_dispatch env db src = .ok (scrape_twitter_enhanced env db src) ∨
    scrape_source_dispatch env db src = .ok (scrape_website_enhanced env db src) ∨
    scrape_source_dispatch env db src =
      .error ("Unsupported platform: " ++ src.platform) := by
  simp only [scrape_source_dispatch]
  split_ifs <;> simp

/-- **C3**: the per-source fetch boundary is total and typed: for every
environment, store and source the result either succeeds or fails carrying a
human-readable error string (first conjunct); and an unsupported platform
label in particular is converted — not propagated — into the failed result
with the `Unsupported platform` message, leaving the store untouched
(second conjunct). -/
theorem fetch_boundary_never_throws :
    (∀ (env : Env) (db : Db) (src : Source),
       (scrape_source_enhanced env db src).1.success = true ∨
       ((scrape_source_enhanced env db src).1.success = false ∧
        ((scrape_source_enhanced env db src).1.error).isSome = true)) ∧
    (∀ (env : Env) (db : Db) (src : Source),
       effective_platform src ∉ supported_platforms →
       scrape_source_enhanced env db src =
         ({ success := false, new_content_count := 0,
            error := some ("Unsupported platform: " ++ src.platform),
            source_name := src.name }, db)) := by
  constructor
  · intro env db src
    by_cases hs : (scrape_source_enhanced env db src).1.success = true
    · exact Or.inl hs
    · refine Or.inr ⟨by simpa using hs, ?_⟩
      have hfalse : (scrape_source_enhanced env db src).1.success = false := by
        simpa using hs
      rcases dispatch_cases env db src with h | h | h | h | h | h
      · have : scrape_source_enhanced env db src = scrape_youtube_enhanced env db src := by
          unfold scrape_source_enhanced; rw [h]
        rw [this] at hfalse ⊢
        exact youtube_failure_has_error env db src hfalse
      · have : scrape_source_enhanced env db src = scrape_rss_enhanced env db src := by
          unfold scrape_source_enhanced; rw [h]
        rw [this] at hfalse ⊢
        exact rss_failure_has_error env db src hfalse
      · have : scrape_source_enhanced env db src = scrape_instagram_enhanced env db src := by
          unfold scrape_source_enhanced; rw [h]
        rw [this] at hfalse ⊢
        exact instagram_failure_has_error env db src hfalse
      · have : scrape_source_enhanced env db src = scrape_twitter_enhanced env db src := by
          unfold scrape_source_enhanced; rw [h]
        rw [this] at hfalse ⊢
        exact twitter_failure_has_error env db src hfalse
      · have : scrape_source_enhanced env db src = scrape_website_enhanced env db src := by
          unfold scrape_source_enhanced; rw [h]
        rw [this] at hfalse ⊢
        exact website_failure_has_error env db src hfalse
      · unfold scrape_source_enhanced
        rw [h]
        simp
  · intro env db src h
    simp only [supported_platforms, List.mem_cons, List.not_mem_nil, or_false,
      not_or] at h
    obtain ⟨h1, h2, h3, h4, h5, h6, h7, h8⟩ := h
    unfold scrape_source_enhanced scrape_source_dispatch
    simp [beq_iff_eq, h1, h2, h3, h4, h5, h6, h7, h8]

/-- A source with an unsupported platform label. -/
def src_tiktok : Source :=
  { name := "T", url := "https://tiktok.com/@x", platform := "tiktok",
    source_type := "profile" }

/-- Witness for C3's unsupported-platform conjunct: a `tiktok` source is
converted to a typed failed result. -/
theorem fetch_boundary_never_throws_witness :
    effective_platform src_tiktok ∉ supported_platforms ∧
    scrape_source_enhanced env0 [] src_tiktok =
      ({ success := false, new_content_count := 0,
         error := some "Unsupported platform: tiktok",
         source_name := "T" }, []) := by
  refine ⟨by decide, ?_⟩
  exact fetch_boundary_never_throws.2 env0 [] src_tiktok (by decide)

/-! ### C1: the duplicate guard, strategy by strategy -/

/-- **C1** (amended): an entry already matching the store on *either*
criterion — link equality or fingerprint equality — is skipped, with
nothing inserted, by the RSS, YouTube, Twitter-twscrape, Twitter-Nitter and
website strategies (each conjunct: a matching store is returned unchanged
by the per-entry step, so by contraposition an insert happens only with no
match).  The Instagram strategy however probes only `Topic.link`: for it,
only a link match is guaranteed to skip (last conjunct), and a fingerprint
match at a different link does not — see the counterexample. -/
theorem dedup_guard_per_strategy :
    (∀ (today : Int) (src : Source) (st : Db × LoopCounts) (e : FeedEntry),
       rss_is_duplicate st.1 e
           (generate_content_hash (e.title.getD "Untitled") (e.link.getD "")) = true →
       (rss_entry_step today src st e).1 = st.1) ∧
    (∀ (today : Int) (src : Source) (db : Db) (c : LoopCounts) (e : FeedEntry)
       (ti li : String), e.title = some ti → e.link = some li →
       (db.any (fun t => t.link == li ||
         t.description == generate_content_hash ti li)) = true →
       (youtube_entry_step today src db c e).1 = db) ∧
    (∀ (today : Int) (src : Source) (username : String) (st : Db × Nat × Nat)
       (tw : Tweet),
       (st.1.any (fun t => t.link == twscrape_tweet_link username tw ||
         t.description == generate_content_hash (pyTake 100 tw.raw_content)
           (twscrape_tweet_link username tw))) = true →
       (twscrape_tweet_step today src username st tw).1 = st.1) ∧
    (∀ (today : Int) (src : Source) (st : Db × Nat × Nat) (e : FeedEntry),
       (st.1.any (fun t => t.link == e.link.getD src.url ||
         t.description == generate_content_hash (e.title.getD "")
           (e.link.getD src.url))) = true →
       (nitter_entry_step today src st e).1 = st.1) ∧
    (∀ (env : Env) (db : Db) (src : Source),
       (db.any (fun t => t.link == src.url ||
         t.description == generate_content_hash
           (env.soup_title ((env.http_get src.url).toOption.getD ""))
           src.url)) = true →
       (scrape_website_enhanced env db src).2 = db) ∧
    (∀ (today : Int) (src : Source) (profile : String) (st : Db × Nat × Nat)
       (p : InstaPost),
       (st.1.any (fun t => t.link == instagram_post_url p)) = true →
       (instagram_post_step today src profile st p).1 = st.1) := by
  refine ⟨?_, ?_, ?_, ?_, ?_, ?_⟩
  · intro today src st e hdup
    by_cases hq : is_content_quality_sufficient (e.title.getD "Untitled")
        (extract_rss_content e) <;>
      simp [rss_entry_step, hq, hdup]
  · intro today src db c e ti li hti hli hdup
    unfold youtube_entry_step
    rw [hti, hli]
    by_cases hq : is_content_quality_sufficient ti (e.summary.getD "")
    · by_cases hl : db.any (fun t => t.link == li)
      · simp [hq, hl]
      · have hd : db.any (fun t => t.description == generate_content_hash ti li) = true := by
          obtain ⟨t, ht, hor⟩ := List.any_eq_true.mp hdup
          rcases Bool.or_eq_true _ _ |>.mp hor with h | h
          · exact absurd (List.any_eq_true.mpr ⟨t, ht, h⟩) hl
          · exact List.any_eq_true.mpr ⟨t, ht, h⟩
        simp [hq, hl, hd]
    · simp [hq]
  · intro today src username st tw hdup
    by_cases hq : is_content_quality_sufficient (pyTake 100 tw.raw_content)
        tw.raw_content <;>
      simp [twscrape_tweet_step, hq, hdup]
  · intro today src st e hdup
    by_cases hq : is_content_quality_sufficient (e.title.getD "")
        (e.summary.getD "") <;>
      simp [nitter_entry_step, hq, hdup]
  · intro env db src hdup
    unfold scrape_website_enhanced
    rcases hh : env.http_get src.url with err | html
    · rfl
    · rw [hh] at hdup
      simp only [Except.toOption, Option.getD_some] at hdup
      by_cases hq : is_content_quality_sufficient (env.soup_title html)
          (env.soup_content html) <;>
        simp [hq, hdup]
  · intro today src profile st p hdup
    simp [instagram_post_step, hdup]

/-- An RSS entry whose link is already stored. -/
def feed_entry_dup : FeedEntry :=
  { title := some "A fairly good title", link := some "https://site.example/post1",
    summary := some "A body well over the fifty character minimum, fully adequate." }

/-- The already-stored topic with that link. -/
def topic_dup : Topic :=
  { title := "Old", description := "d41d8cd98f00b204e9800998ecf8427e",
    content := "", platform := "RSS", source := "S",
    link := "https://site.example/post1", publish_date := 0,
    popularity_score := 0, content_length := 0 }

/-- A feed source fixture. -/
def src_rss : Source :=
  { name := "Feed A", url := "https://site.example/rss.xml", platform := "rss",
    source_type := "rss" }

/-- Witness for C1: the RSS step leaves the store unchanged on an entry
whose link already exists. -/
theorem dedup_guard_per_strategy_witness :
    rss_is_duplicate [topic_dup] feed_entry_dup
        (generate_content_hash (feed_entry_dup.title.getD "Untitled")
          (feed_entry_dup.link.getD "")) = true ∧
    (rss_entry_step 20000 src_rss ([topic_dup], {}) feed_entry_dup).1 = [topic_dup] := by
  refine ⟨by decide, ?_⟩
  exact dedup_guard_per_strategy.1 20000 src_rss ([topic_dup], {}) feed_entry_dup
    (by decide)

/-- A 60-character Instagram caption. -/
def insta_caption : String := String.mk (List.replicate 60 'a')

/-- The Instagram post built from it. -/
def insta_post1 : InstaPost :=
  { shortcode := "ABC", caption := some insta_caption, likes := 5,
    comments := 1, is_video := false, date_utc := 19990 }

/-- Its post URL, as the strategy builds it. -/
def insta_url1 : String := "https://www.instagram.com/p/ABC/"

/-- A stored topic at a *different* link whose stored fingerprint equals the
fingerprint of the incoming post. -/
def topic_other : Topic :=
  { title := "Other", description := generate_content_hash insta_caption insta_url1,
    content := "", platform := "RSS", source := "S",
    link := "https://other.example/x", publish_date := 0,
    popularity_score := 0, content_length := 0 }

/-- An Instagram source fixture. -/
def src_insta : Source :=
  { name := "Insta", url := "https://www.instagram.com/someprofile",
    platform := "instagram", source_type := "profile" }

/-- Environment delivering exactly that one post. -/
def env_insta1 : Env := { env0 with insta_posts := fun _ => .ok [insta_post1] }

set_option maxRecDepth 100000 in
/-- Counterexample to C1 as stated: the incoming Instagram post's
fingerprint equals a stored topic's (first two conjuncts) while its link is
new (third), yet the strategy *inserts* it — the run reports one new topic
and the store ends with two rows carrying the same fingerprint. -/
theorem instagram_inserts_fingerprint_duplicate :
    topic_other.description = generate_content_hash insta_caption insta_url1 ∧
    ([topic_other].any (fun t =>
       t.description == generate_content_hash insta_caption insta_url1)) = true ∧
    (¬ topic_other.link = insta_url1) ∧
    (scrape_instagram_enhanced env_insta1 [topic_other] src_insta).1.new_content_count = 1 ∧
    (scrape_instagram_enhanced env_insta1 [topic_other] src_insta).2.map Topic.description =
      [generate_content_hash insta_caption insta_url1,
       generate_content_hash insta_caption insta_url1] := by
  refine ⟨rfl, by decide, by decide, by decide, by decide⟩

/-! ### C10: what the `description` column actually stores -/

/-- **C10** (amended): the RSS, YouTube and both Twitter strategies store
the dedup fingerprint — `_generate_content_hash` of the entry's raw
(pre-cleaning, pre-truncation) title and the persisted link — in the
topic's `description` field (first four conjuncts), and each per-entry step
either leaves the store unchanged or appends exactly that topic (remaining
conjuncts).  The Instagram strategy also stores a fingerprint in
`description`, but hashes the *full caption* rather than its
100-character title source — see the counterexample. -/
theorem fingerprint_stored_in_description :
    (∀ (today : Int) (src : Source) (e : FeedEntry),
       (rss_topic_of today src e).description =
         generate_content_hash (e.title.getD "Untitled")
           ((rss_topic_of today src e).link)) ∧
    (∀ (today : Int) (src : Source) (e : FeedEntry) (ti li : String),
       (youtube_topic_of today src e ti li).description =
         generate_content_hash ti ((youtube_topic_of today src e ti li).link)) ∧
    (∀ (today : Int) (src : Source) (username : String) (tw : Tweet),
       (twscrape_topic_of today src username tw).description =
         generate_content_hash (pyTake 100 tw.raw_content)
           ((twscrape_topic_of today src username tw).link)) ∧
    (∀ (today : Int) (src : Source) (e : FeedEntry),
       (nitter_topic_of today src e).description =
         generate_content_hash (e.title.getD "")
           ((nitter_topic_of today src e).link)) ∧
    (∀ (today : Int) (src : Source) (st : Db × LoopCounts) (e : FeedEntry),
       (rss_entry_step today src st e).1 = st.1 ∨
       (rss_entry_step today src st e).1 = st.1 ++ [rss_topic_of today src e]) ∧
    (∀ (today : Int) (src : Source) (db : Db) (c : LoopCounts) (e : FeedEntry),
       (youtube_entry_step today src db c e).1 = db ∨
       ∃ ti li, e.title = some ti ∧ e.link = some li ∧
         (youtube_entry_step today src db c e).1 =
           db ++ [youtube_topic_of today src e ti li]) ∧
    (∀ (today : Int) (src : Source) (username : String) (st : Db × Nat × Nat)
       (tw : Tweet),
       (twscrape_tweet_step today src username st tw).1 = st.1 ∨
       (twscrape_tweet_step today src username st tw).1 =
         st.1 ++ [twscrape_topic_of today src username tw]) ∧
    (∀ (today : Int) (src : Source) (st : Db × Nat × Nat) (e : FeedEntry),
       (nitter_entry_step today src st e).1 = st.1 ∨
       (nitter_entry_step today src st e).1 = st.1 ++ [nitter_topic_of today src e]) ∧
    (∀ (today : Int) (src : Source) (profile : String) (st : Db × Nat × Nat)
       (p : InstaPost),
       (instagram_post_step today src profile st p).1 = st.1 ∨
       (instagram_post_step today src profile st p).1 =
         st.1 ++ [instagram_topic_of today src profile p]) := by
  refine ⟨fun _ _ _ => rfl, fun _ _ _ _ _ => rfl, fun _ _ _ _ => rfl,
    fun _ _ _ => rfl, ?_, ?_, ?_, ?_, ?_⟩
  · intro today src st e
    simp only [rss_entry_step]
    split_ifs <;> simp
  · intro today src db c e
    simp only [youtube_entry_step]
    rcases e.title with _ | ti
    · exact Or.inl rfl
    · by_cases hq : is_content_quality_sufficient ti (e.summary.getD "")
      · rcases hli : e.link with _ | li
        · simp [hq]
        · by_cases h1 : db.any (fun t => t.link == li)
          · simp [hq, h1]
          · by_cases h2 : db.any (fun t =>
                t.description == generate_content_hash ti li)
            · simp [hq, h1, h2]
            · refine Or.inr ⟨ti, li, rfl, rfl, ?_⟩
              simp [hq, h1, h2]
      · simp [hq]
  · intro today src username st tw
    simp only [twscrape_tweet_step]
    split_ifs <;> simp
  · intro today src st e
    simp only [nitter_entry_step]
    split_ifs <;> simp
  · intro today src profile st p
    simp only [instagram_post_step]
    split_ifs <;> simp

/-- A 120-character caption: longer than the 100-character title slice. -/
def insta_caption_long : String := String.mk (List.replicate 120 'a')

/-- The Instagram post carrying it. -/
def insta_post2 : InstaPost :=
  { shortcode := "XYZ", caption := some insta_caption_long, likes := 0,
    comments := 0, is_video := false, date_utc := 19990 }

/-- Its post URL, as the strategy builds it. -/
def insta_url2 : String := "https://www.instagram.com/p/XYZ/"

/-- Environment delivering exactly that one post. -/
def env_insta2 : Env := { env0 with insta_posts := fun _ => .ok [insta_post2] }

set_option maxRecDepth 100000 in
/-- Counterexample to C10 as stated: the run persists exactly one topic for
the 120-character-caption post (first two conjuncts); that topic's title
comes from the caption truncated to 100 characters while its `description`
is the MD5 fingerprint of the *full* caption (middle conjuncts) — a
different digest than `_generate_content_hash(title source, link)` (last
conjunct). -/
theorem instagram_description_hashes_full_caption :
    (scrape_instagram_enhanced env_insta2 [] src_insta).1.new_content_count = 1 ∧
    (scrape_instagram_enhanced env_insta2 [] src_insta).2.map Topic.link =
      [insta_url2] ∧
    (scrape_instagram_enhanced env_insta2 [] src_insta).2.map Topic.title =
      [clean_title (pyTake 100 insta_caption_long)] ∧
    (scrape_instagram_enhanced env_insta2 [] src_insta).2.map Topic.description =
      [generate_content_hash insta_caption_long insta_url2] ∧
    generate_content_hash insta_caption_long insta_url2 ≠
      generate_content_hash (pyTake 100 insta_caption_long) insta_url2 := by
  refine ⟨by decide, by decide, by decide, rfl, by decide⟩

/-- Sanity: `pyTake` is Python's `s[:n]` character slice. -/
theorem pyTake_example : pyTake 3 "abcdef" = "abc" := by decide

/-! ### C6: popularity bounds -/

/-- A prefix match puts every needle character into the haystack. -/
theorem mem_of_listStartsWith (p : List Char) :
    ∀ l : List Char, listStartsWith p l = true → ∀ c ∈ p, c ∈ l := by
  induction p with
  | nil => simp
  | cons a p' ih =>
    intro l h c hc
    cases l with
    | nil => simp [listStartsWith] at h
    | cons b l' =>
      simp only [listStartsWith, Bool.and_eq_true, beq_iff_eq] at h
      rcases List.mem_cons.mp hc with rfl | hc'
      · simp [h.1]
      · exact List.mem_cons_of_mem _ (ih l' h.2 c hc')

/-- The scanner of `strContains` fails when some needle character is absent
from the haystack. -/
theorem strContainsGo_false_of_missing (p : List Char) (c : Char) (hc : c ∈ p) :
    ∀ l : List Char, c ∉ l → strContains.go p l = false := by
  intro l
  induction l with
  | nil =>
    intro _
    cases hp : p with
    | nil => rw [hp] at hc; simp at hc
    | cons a p' => simp [strContains.go, listStartsWith]
  | cons b t ih =>
    intro hl
    have hrec : strContains.go p t = false :=
      ih (fun hmem => hl (List.mem_cons_of_mem _ hmem))
    cases hst : listStartsWith p (b :: t) with
    | false => simp [strContains.go, hst, hrec]
    | true => exact absurd (mem_of_listStartsWith p (b :: t) hst c hc) hl

/-- A substring search fails when some needle character is absent from the
haystack. -/
theorem strContains_false_of_missing (needle hay : String) (c : Char)
    (hc : c ∈ needle.data) (hl : c ∉ hay.data) : strContains needle hay = false :=
  strContainsGo_false_of_missing needle.data c hc hay.data hl

/-- A title of 20 `b` characters. -/
def web_title : String := String.mk (List.replicate 20 'b')

/-- 1010 characters of extracted page content: enough for the uncapped
website score to exceed 100 while still passing the quality gate. -/
def web_content_long : String := String.mk (List.replicate 1010 'a')

/-- A generic-website source fixture. -/
def src_web : Source :=
  { name := "W", url := "https://pages.example/article", platform := "website",
    source_type := "page" }

/-- Environment whose page extraction yields exactly those fields. -/
def env_web : Env :=
  { env0 with http_get := fun _ => .ok "page", soup_title := fun _ => web_title, soup_content := fun _ => web_content_long }

/-- Every character of the lowercased combined text is `b`, space or `a`. -/
theorem web_combined_chars :
    ∀ x ∈ (pyLower (web_title ++ " " ++ web_content_long)).data,
      x = 'b' ∨ x = ' ' ∨ x = 'a' := by
  intro x hx
  simp only [pyLower, web_title, web_content_long, String.data_append] at hx
  rcases List.mem_map.mp hx with ⟨d, hd, rfl⟩
  rcases List.mem_append.mp hd with h | h
  · rcases List.mem_append.mp h with h' | h'
    · have hb : d = 'b' := List.eq_of_mem_replicate h'
      subst hb; exact Or.inl (by decide)
    · have hs : d = ' ' := List.mem_singleton.mp h'
      subst hs; exact Or.inr (Or.inl (by decide))
  · have ha : d = 'a' := List.eq_of_mem_replicate h
    subst ha; exact Or.inr (Or.inr (by decide))

/-- No spam phrase occurs in the long fixture text. -/
theorem web_no_spam : has_spam (web_title ++ " " ++ web_content_long) = false := by
  have hmiss : ∀ (p : String) (c : Char), c ∈ p.data →
      c ≠ 'b' → c ≠ ' ' → c ≠ 'a' →
      strContains p (pyLower (web_title ++ " " ++ web_content_long)) = false := by
    intro p c hc h1 h2 h3
    refine strContains_false_of_missing _ _ c hc ?_
    intro hmem
    rcases web_combined_chars c hmem with rfl | rfl | rfl
    · exact h1 rfl
    · exact h2 rfl
    · exact h3 rfl
  simp only [has_spam, spam_patterns, List.any_cons, List.any_nil,
    Bool.or_eq_false_iff]
  refine ⟨?_, ?_, ?_, ?_, ?_, ?_, ?_, ?_, ?_, trivial⟩
  · exact hmiss _ 'c' (by decide) (by decide) (by decide) (by decide)
  · exact hmiss _ 's' (by decide) (by decide) (by decide) (by decide)
  · exact hmiss _ 'f' (by decide) (by decide) (by decide) (by decide)
  · exact hmiss _ 'l' (by decide) (by decide) (by decide) (by decide)
  · exact hmiss _ 'c' (by decide) (by decide) (by decide) (by decide)
  · exact hmiss _ 'u' (by decide) (by decide) (by decide) (by decide)
  · exact hmiss _ 'f' (by decide) (by decide) (by decide) (by decide)
  · exact hmiss _ '1' (by decide) (by decide) (by decide) (by decide)
  · exact hmiss _ 'n' (by decide) (by decide) (by decide) (by decide)

/-- The fixture title has 20 characters. -/
theorem web_title_length : web_title.length = 20 := by
  rw [web_title, String.length_mk, List.length_replicate]

/-- The fixture content has 1010 characters. -/
theorem web_content_long_length : web_content_long.length = 1010 := by
  rw [web_content_long, String.length_mk, List.length_replicate]

/-- The long fixture passes the quality gate. -/
theorem web_gate_true :
    is_content_quality_sufficient web_title web_content_long = true := by
  simp [is_content_quality_sufficient, quality_thresholds, web_no_spam,
    web_title_length, web_content_long_length]

/-- The quality gate bounds the body length by the maximum threshold. -/
theorem gate_content_le (title content : String)
    (h : is_content_quality_sufficient title content = true) :
    content.length ≤ 5000 := by
  simp only [is_content_quality_sufficient, quality_thresholds] at h
  split_ifs at h
  all_goals try simp at h
  all_goals omega

/-- **C6** (amended): the YouTube, RSS, Instagram and twscrape-Twitter
popularity scores always lie within [0, 100].  The generic-website strategy
however assigns the *uncapped* `len(content) // 10`: it is nonnegative, and
the quality gate's 5000-character body maximum only bounds it by 500 — it
is not bounded by 100 (counterexample: a persisted topic scoring 101). -/
theorem popularity_bounds :
    (∀ (today : Int) (e : FeedEntry),
       0 ≤ calculate_youtube_popularity today e ∧
       calculate_youtube_popularity today e ≤ 100) ∧
    (∀ (today : Int) (e : FeedEntry),
       0 ≤ calculate_rss_popularity today e ∧
       calculate_rss_popularity today e ≤ 100) ∧
    (∀ (today : Int) (p : InstaPost),
       0 ≤ calculate_instagram_popularity today p ∧
       calculate_instagram_popularity today p ≤ 100) ∧
    (∀ s : String,
       0 ≤ twitter_twscrape_popularity s ∧ twitter_twscrape_popularity s ≤ 100) ∧
    (∀ content : String, 0 ≤ website_popularity content) ∧
    (∀ title content : String,
       is_content_quality_sufficient title content = true →
       website_popularity content ≤ 500) := by
  refine ⟨?_, ?_, ?_, ?_, ?_, ?_⟩
  · intro today e
    unfold calculate_youtube_popularity
    refine ⟨le_min ?_ (by norm_num), min_le_right _ _⟩
    rcases e.published with _ | pub <;> dsimp only
    · positivity
    · split_ifs <;> positivity
  · intro today e
    unfold calculate_rss_popularity
    refine ⟨le_min ?_ (by norm_num), min_le_right _ _⟩
    rcases e.published with _ | pub <;> dsimp only
    · positivity
    · split_ifs <;> positivity
  · intro today p
    unfold calculate_instagram_popularity
    refine ⟨le_min ?_ (by norm_num), min_le_right _ _⟩
    have h1 : (0 : ℚ) ≤ min ((p.likes : ℚ) / 100) 50 :=
      le_min (by positivity) (by norm_num)
    have h2 : (0 : ℚ) ≤ min ((p.comments : ℚ) / 10) 25 :=
      le_min (by positivity) (by norm_num)
    dsimp only
    split_ifs <;> linarith
  · intro s
    unfold twitter_twscrape_popularity
    exact ⟨le_min (by positivity) (by norm_num), min_le_right _ _⟩
  · intro content
    unfold website_popularity
    positivity
  · intro title content h
    have hlen : content.length ≤ 5000 := gate_content_le title content h
    unfold website_popularity
    have hdiv : content.length / 10 ≤ 500 := by omega
    exact_mod_cast hdiv

/-- Witness for C6's gate-bounded conjunct at a concrete accepted input. -/
theorem popularity_bounds_witness :
    is_content_quality_sufficient "abcdefghij" (String.mk (List.replicate 50 'b')) = true ∧
    website_popularity (String.mk (List.replicate 50 'b')) ≤ 500 := by
  exact ⟨by decide, popularity_bounds.2.2.2.2.2 "abcdefghij" _ (by decide)⟩

/-- Counterexample to C6 as stated: the website strategy persists a topic
whose popularity score is 101 > 100 (the content passes the gate, the store
receives exactly the one topic, and its score is the uncapped
`1010 // 10`). -/
theorem website_popularity_exceeds_cap :
    is_content_quality_sufficient web_title web_content_long = true ∧
    (scrape_website_enhanced env_web [] src_web).2.map Topic.popularity_score =
      [website_popularity web_content_long] ∧
    website_popularity web_content_long = 101 ∧
    ¬ ((101 : ℚ) ≤ 100) := by
  refine ⟨web_gate_true, ?_, ?_, by norm_num⟩
  · simp [scrape_website_enhanced, env_web, env0, web_gate_true, website_topic_of]
  · unfold website_popularity
    rw [web_content_long_length]
    norm_num

/-! ### C8: YouTube URL-to-feed derivation -/

/-- **C8** (amended): the derivation is bit-exact *under the code's branch
precedence*: a URL already containing `feeds/videos.xml` is passed through
unchanged; otherwise a URL containing `/channel/<id>` maps to the
channel-id feed template; otherwise one containing `playlist?list=<id>`
maps to the playlist feed template; otherwise video (`/watch?v=`,
`youtu.be/`) and custom/user/handle URLs yield a feed URL only through
external channel-id resolution, with a clean `none` when resolution is
unavailable or fails; any other URL yields `none`. -/
theorem youtube_feed_derivation :
    (∀ (resolve : String → Option String) (url : String),
       strContains "feeds/videos.xml" url = false →
       strContains "/channel/" url = true →
       get_youtube_rss_url resolve url =
         some ("https://www.youtube.com/feeds/videos.xml?channel_id=" ++
           extract_channel_id url)) ∧
    (∀ (resolve : String → Option String) (url : String),
       strContains "feeds/videos.xml" url = false →
       strContains "/channel/" url = false →
       strContains "playlist?list=" url = true →
       get_youtube_rss_url resolve url =
         some ("https://www.youtube.com/feeds/videos.xml?playlist_id=" ++
           extract_playlist_id url)) ∧
    (∀ (resolve : String → Option String) (url : String),
       strContains "feeds/videos.xml" url = false →
       strContains "/channel/" url = false →
       strContains "playlist?list=" url = false →
       (strContains "/watch?v=" url || strContains "youtu.be/" url) = true →
       get_youtube_rss_url resolve url =
         (resolve url).map
           (fun cid => "https://www.youtube.com/feeds/videos.xml?channel_id=" ++ cid)) ∧
    (∀ (resolve : String → Option String) (url : String),
       strContains "feeds/videos.xml" url = false →
       strContains "/channel/" url = false →
       strContains "playlist?list=" url = false →
       (strContains "/watch?v=" url || strContains "youtu.be/" url) = false →
       (strContains "/c/" url || strContains "/user/" url ||
         strContains "youtube.com/@" url) = true →
       get_youtube_rss_url resolve url =
         (resolve url).map
           (fun cid => "https://www.youtube.com/feeds/videos.xml?channel_id=" ++ cid)) ∧
    (∀ (resolve : String → Option String) (url : String),
       strContains "feeds/videos.xml" url = false →
       strContains "/channel/" url = false →
       strContains "playlist?list=" url = false →
       (strContains "/watch?v=" url || strContains "youtu.be/" url) = false →
       (strContains "/c/" url || strContains "/user/" url ||
         strContains "youtube.com/@" url) = false →
       get_youtube_rss_url resolve url = none) := by
  refine ⟨?_, ?_, ?_, ?_, ?_⟩
  · intro resolve url h1 h2
    simp [get_youtube_rss_url, h1, h2]
  · intro resolve url h1 h2 h3
    simp [get_youtube_rss_url, h1, h2, h3]
  · intro resolve url h1 h2 h3 h4
    rcases hr : resolve url with _ | cid <;>
      simp [get_youtube_rss_url, h1, h2, h3, h4, hr]
  · intro resolve url h1 h2 h3 h4 h5
    rcases hr : resolve url with _ | cid <;>
      simp [get_youtube_rss_url, h1, h2, h3, h4, h5, hr]
  · intro resolve url h1 h2 h3 h4 h5
    simp [get_youtube_rss_url, h1, h2, h3, h4, h5]

/-- Witness for C8: a plain channel URL maps to the channel feed template. -/
theorem youtube_feed_derivation_witness :
    strContains "feeds/videos.xml" "https://www.youtube.com/channel/UCabc" = false ∧
    strContains "/channel/" "https://www.youtube.com/channel/UCabc" = true ∧
    get_youtube_rss_url (fun _ => none) "https://www.youtube.com/channel/UCabc" =
      some ("https://www.youtube.com/feeds/videos.xml?channel_id=" ++
        extract_channel_id "https://www.youtube.com/channel/UCabc") := by
  exact ⟨by decide, by decide,
    youtube_feed_derivation.1 (fun _ => none) _ (by decide) (by decide)⟩

/-- A URL containing both a `/channel/<id>` segment and a
`playlist?list=<id>` query. -/
def yt_url_mixed : String := "https://www.youtube.com/channel/UC1/playlist?list=PL2"

/-- Counterexample to C8 as stated: this URL contains `playlist?list=PL2`,
so the claim's playlist rule demands the playlist feed template, but the
code's `/channel/` branch runs first and returns the channel template — a
different URL. -/
theorem youtube_feed_derivation_counterexample :
    strContains "playlist?list=" yt_url_mixed = true ∧
    get_youtube_rss_url (fun _ => none) yt_url_mixed =
      some "https://www.youtube.com/feeds/videos.xml?channel_id=UC1" ∧
    ("https://www.youtube.com/feeds/videos.xml?channel_id=UC1" : String) ≠
      "https://www.youtube.com/feeds/videos.xml?playlist_id=PL2" := by
  refine ⟨by decide, by decide, by decide⟩

/-! ### C9: the website-to-feed reclassification -/

/-- The remainder of the list after the first occurrence of `marker`. -/
def dropThroughMarker (marker : List Char) : List Char → Option (List Char)
  | [] => none
  | l@(_ :: t) =>
    if listStartsWith marker l then some (l.drop marker.length)
    else dropThroughMarker marker t

/-- Following the claim's words: the *path* component of the URL — what
`urllib.parse.urlparse(url).path` yields: the part after `scheme://` and
the authority, from the first `/` on, cut at any `?` query or `#`
fragment. -/
def url_path (url : String) : String :=
  let noFrag := (pySplit "#" url).headD url
  let noQuery := (pySplit "?" noFrag).headD noFrag
  match dropThroughMarker "://".data noQuery.data with
  | some after => ⟨after.dropWhile (fun c => c != '/')⟩
  | none => noQuery

/-- Following the claim's words ("path ending in a feed suffix or an XML
extension, matched case-insensitively"): the URL's path ends in `.rss`,
`.xml`, `/feed` or `/feed/`. -/
def claim_feed_file_pattern (url : String) : Bool :=
  let l := (pyLower (url_path url)).data
  listEndsWith ".rss".data l || listEndsWith ".xml".data l ||
    listEndsWith "/feed".data l || listEndsWith "/feed/".data l

/-- **C9** (amended): for a source whose declared platform lowercases to
`website`, the dispatcher hands the attempt to the RSS strategy exactly
when the *whole URL string* ends (case-insensitively) with `.rss`, `.xml`,
`/feed` or `/feed/` (the code's `re.search(r"(\.rss$|\.xml$|/feed/?$)")` on
the URL, not on its path component), and to the website strategy otherwise;
other declared labels are used as-is after lowercasing. -/
theorem website_feed_override (env : Env) (db : Db) (src : Source)
    (hplat : pyLower src.platform = "website") :
    (url_indicates_feed src.url = true →
       scrape_source_enhanced env db src = scrape_rss_enhanced env db src) ∧
    (url_indicates_feed src.url = false →
       scrape_source_enhanced env db src = scrape_website_enhanced env db src) := by
  constructor <;> intro hov <;>
    simp [scrape_source_enhanced, scrape_source_dispatch, effective_platform,
      hplat, hov]

/-- A source declared `Website` whose URL ends in `.xml`. -/
def src_rss_xml : Source :=
  { name := "RX", url := "https://site.example/rss.xml", platform := "Website",
    source_type := "website" }

/-- Witness for C9: the `.xml` URL is handled by the RSS strategy. -/
theorem website_feed_override_witness :
    pyLower src_rss_xml.platform = "website" ∧
    url_indicates_feed src_rss_xml.url = true ∧
    scrape_source_enhanced env0 [] src_rss_xml = scrape_rss_enhanced env0 [] src_rss_xml := by
  refine ⟨by decide, by decide, ?_⟩
  exact (website_feed_override env0 [] src_rss_xml (by decide)).1 (by decide)

/-- A title/body pair comfortably inside the gate. -/
def web_title_small : String := "A perfectly fine title"

/-- 80 characters of page body. -/
def web_content_small : String := String.mk (List.replicate 80 'x')

/-- A `website` source whose *path* is `/feed` but whose URL carries a
query string. -/
def src_feedquery : Source :=
  { name := "FQ", url := "https://example.com/feed?page=2", platform := "website",
    source_type := "website" }

/-- Environment for the C9 counterexample: the page fetches fine and parses
as an empty feed. -/
def env_small : Env :=
  { env0 with http_get := fun _ => .ok "page", soup_title := fun _ => web_title_small, soup_content := fun _ => web_content_small }

/-- Counterexample to C9 as stated: this URL's path (`/feed`) ends in a
feed suffix, so the claim demands the feed strategy, but the code's regex
runs on the whole URL (which ends in `2`), does not match, and the source
is handled by the *website* strategy — observably: one website topic is
inserted where the feed strategy would have inserted none. -/
theorem website_feed_override_counterexample :
    claim_feed_file_pattern src_feedquery.url = true ∧
    url_indicates_feed src_feedquery.url = false ∧
    (scrape_source_enhanced env_small [] src_feedquery).1.new_content_count = 1 ∧
    (scrape_source_enhanced env_small [] src_feedquery).2.map Topic.platform =
      ["Website"] ∧
    (scrape_rss_enhanced env_small [] src_feedquery).1.new_content_count = 0 := by
  refine ⟨by decide, by decide, by decide, by decide, by decide⟩

/-! ### C4: run isolation

Whether a source's scrape succeeds, and with which error string, does not
depend on the store contents (the store only decides which entries are
skipped as duplicates).  These independence lemmas let the run's error list
be described as a `filterMap` over the source list. -/

theorem rss_result_indep (env : Env) (src : Source) (db db' : Db) :
    (scrape_rss_enhanced env db src).1.success =
      (scrape_rss_enhanced env db' src).1.success ∧
    (scrape_rss_enhanced env db src).1.error =
      (scrape_rss_enhanced env db' src).1.error := by
  unfold scrape_rss_enhanced
  rcases env.http_get src.url with e | body
  · exact ⟨rfl, rfl⟩
  · by_cases hemp : (env.parse_feed_text body).isEmpty <;> simp [hemp]

theorem youtube_step_err_indep (today : Int) (src : Source) (e : FeedEntry)
    (db db' : Db) (c c' : LoopCounts) :
    (youtube_entry_step today src db c e).2.2 =
      (youtube_entry_step today src db' c' e).2.2 := by
  simp only [youtube_entry_step]
  rcases e.title with _ | ti
  · rfl
  · by_cases hq : is_content_quality_sufficient ti (e.summary.getD "")
    · rcases e.link with _ | li
      · simp [hq]
      · simp only [hq, Bool.not_true]
        split_ifs <;> rfl
    · simp [hq]

theorem youtube_loop_err_indep (today : Int) (src : Source) :
    ∀ (entries : List FeedEntry) (db db' : Db) (c c' : LoopCounts),
      (youtube_loop today src entries db c).2.2 =
        (youtube_loop today src entries db' c' ).2.2 := by
  intro entries
  induction entries with
  | nil => intro db db' c c'; rfl
  | cons e rest ih =>
    intro db db' c c'
    have hstep := youtube_step_err_indep today src e db db' c c'
    simp only [youtube_loop]
    rcases h1 : (youtube_entry_step today src db c e).2.2 with _ | err
    · rw [h1] at hstep
      rcases h2 : (youtube_entry_step today src db' c' e).2.2 with _ | err'
      · simp only [h1, h2]
        exact ih _ _ _ _
      · rw [h2] at hstep
        exact absurd hstep (by simp)
    · rw [h1] at hstep
      rcases h2 : (youtube_entry_step today src db' c' e).2.2 with _ | err'
      · rw [h2] at hstep
        exact absurd hstep (by simp)
      · rw [h2] at hstep
        simp only [h1, h2]
        simpa using hstep

theorem youtube_result_indep (env : Env) (src : Source) (db db' : Db) :
    (scrape_youtube_enhanced env db src).1.success =
      (scrape_youtube_enhanced env db' src).1.success ∧
    (scrape_youtube_enhanced env db src).1.error =
      (scrape_youtube_enhanced env db' src).1.error := by
  unfold scrape_youtube_enhanced
  rcases get_youtube_rss_url env.resolve_channel_id src.url with _ | rss_url
  · exact ⟨rfl, rfl⟩
  · by_cases hemp : (env.parse_feed_url rss_url).isEmpty
    · simp [hemp]
    · have hloop := youtube_loop_err_indep env.today src
        ((env.parse_feed_url rss_url).take 15) db db' {} {}
      simp only [hemp]
      rcases h1 : (youtube_loop env.today src ((env.parse_feed_url rss_url).take 15)
          db {}).2.2 with _ | err
      · rw [h1] at hloop
        rcases h2 : (youtube_loop env.today src ((env.parse_feed_url rss_url).take 15)
            db' {}).2.2 with _ | err'
        · simp [h1, h2]
        · rw [h2] at hloop
          exact absurd hloop (by simp)
      · rw [h1] at hloop
        rcases h2 : (youtube_loop env.today src ((env.parse_feed_url rss_url).take 15)
            db' {}).2.2 with _ | err'
        · rw [h2] at hloop
          exact absurd hloop (by simp)
        · rw [h2] at hloop
          simp only [h1, h2]
          simpa using hloop

theorem instagram_result_indep (env : Env) (src : Source) (db db' : Db) :
    (scrape_instagram_enhanced env db src).1.success =
      (scrape_instagram_enhanced env db' src).1.success ∧
    (scrape_instagram_enhanced env db src).1.error =
      (scrape_instagram_enhanced env db' src).1.error := by
  unfold scrape_instagram_enhanced
  by_cases hav : env.instaloader_available
  · rcases extract_instagram_profile src.url with _ | profile
    · simp [hav]
    · rcases hp : env.insta_posts profile with err | posts
      · rcases err <;> simp [hav, hp]
      · simp [hav, hp]
  · simp [hav]

theorem twitter_result_indep (env : Env) (src : Source) (db db' : Db) :
    (scrape_twitter_enhanced env db src).1.success =
      (scrape_twitter_enhanced env db' src).1.success ∧
    (scrape_twitter_enhanced env db src).1.error =
      (scrape_twitter_enhanced env db' src).1.error := by
  unfold scrape_twitter_enhanced
  rcases extract_twitter_username src.url with _ | username
  · exact ⟨rfl, rfl⟩
  · by_cases hr : env.twscrape_ready
    · rcases ht : env.user_tweets username with e | tweets <;> simp [hr, ht]
    · simp only [hr, Bool.false_eq_true, if_false]
      unfold scrape_twitter_fallback
      by_cases hemp :
          (env.parse_feed_url ("https://nitter.net/" ++ username ++ "/rss")).isEmpty <;>
        simp [hemp]

theorem website_result_indep (env : Env) (src : Source) (db db' : Db) :
    (scrape_website_enhanced env db src).1.success =
      (scrape_website_enhanced env db' src).1.success ∧
    (scrape_website_enhanced env db src).1.error =
      (scrape_website_enhanced env db' src).1.error := by
  unfold scrape_website_enhanced
  rcases env.http_get src.url with e | html
  · exact ⟨rfl, rfl⟩
  · by_cases hq : is_content_quality_sufficient (env.soup_title html)
        (env.soup_content html)
    · simp only [hq, Bool.not_true]
      constructor <;> split_ifs <;> rfl
    · simp [hq]

theorem scrape_source_result_indep (env : Env) (src : Source) (db db' : Db) :
    (scrape_source_enhanced env db src).1.success =
      (scrape_source_enhanced env db' src).1.success ∧
    (scrape_source_enhanced env db src).1.error =
      (scrape_source_enhanced env db' src).1.error := by
  unfold scrape_source_enhanced scrape_source_dispatch
  dsimp only
  split_ifs
  · exact youtube_result_indep env src db db'
  · exact rss_result_indep env src db db'
  · exact instagram_result_indep env src db db'
  · exact twitter_result_indep env src db db'
  · exact website_result_indep env src db db'
  · exact ⟨rfl, rfl⟩

/-- The error string a given source contributes to the run summary (none
when it contributes nothing): the scrape fails with its error message, or
the scrape succeeds and the source-counters commit raises inside the loop.
Stated against the empty store, which the independence lemmas above justify. -/
def source_run_error (env : Env) (src : Source) : Option String :=
  let r := (scrape_source_enhanced env [] src).1
  if r.success then
    match env.commit_source src with
    | .ok _ => none
    | .error e => some (src.name ++ ": Unexpected error - " ++ e)
  else some (run_error_string src r)

theorem process_one_source_fields (env : Env) (st : RunSt) (src : Source) :
    (process_one_source env st src).errors =
      st.errors ++ (source_run_error env src).toList ∧
    (process_one_source env st src).status.processed = st.status.processed + 1 := by
  have hs := scrape_source_result_indep env src st.db []
  simp only [process_one_source, source_run_error, run_error_string]
  by_cases hsucc : (scrape_source_enhanced env st.db src).1.success = true
  · have hb : (scrape_source_enhanced env [] src).1.success = true := by
      rw [← hs.1]; exact hsucc
    rcases hc : env.commit_source src with u | e
    · simp [hsucc, hb, hc]
    · simp [hsucc, hb, hc]
  · have hb : ¬ (scrape_source_enhanced env [] src).1.success = true := by
      rw [← hs.1]; exact hsucc
    simp [hsucc, hb, hs.2]

theorem run_loop_fields (env : Env) :
    ∀ (sources : List Source) (st : RunSt),
      (sources.foldl (process_one_source env) st).errors =
        st.errors ++ sources.filterMap (source_run_error env) ∧
      (sources.foldl (process_one_source env) st).status.processed =
        st.status.processed + sources.length := by
  intro sources
  induction sources with
  | nil => intro st; simp
  | cons s rest ih =>
    intro st
    have hstep := process_one_source_fields env st s
    have hrec := ih (process_one_source env st s)
    constructor
    · rw [List.foldl_cons, hrec.1, hstep.1, List.filterMap_cons]
      rcases hse : source_run_error env s with _ | msg <;> simp
    · rw [List.foldl_cons, hrec.2, hstep.2, List.length_cons]
      omega

/-- **C4**: for every environment whose active-source load succeeds, the
run returns a summary with top-level `success = true`; its error list is
exactly one string per failed source, in source order (a `filterMap` over
the loaded list — so a failure never aborts processing of later sources);
`error_count` agrees; and the progress counter shows every source was
iterated. -/
theorem run_isolation (env : Env) (db : Db) (sources : List Source)
    (h : env.load_sources = .ok sources) :
    (scrape_all_sources env db).1.success = true ∧
    (scrape_all_sources env db).1.errors =
      sources.filterMap (source_run_error env) ∧
    (scrape_all_sources env db).1.error_count =
      (sources.filterMap (source_run_error env)).length ∧
    (scrape_all_sources env db).2.1.processed = sources.length ∧
    (scrape_all_sources env db).1.total_sources = sources.length := by
  unfold scrape_all_sources
  rw [h]
  by_cases hemp : sources.isEmpty
  · have hnil : sources = [] := List.isEmpty_iff.mp hemp
    subst hnil
    simp
  · have hemp' : sources.isEmpty = false := by
      revert hemp; cases sources.isEmpty <;> simp
    have hfold := run_loop_fields env sources
      { db := db,
        status := { status := "running", processed := 0, total := sources.length,
                    current_source := "Başlatılıyor...", new_content_count := 0,
                    errors := [] },
        total_new_content := 0, sources_processed := 0, errors := [] }
    simp only [hemp', Bool.false_eq_true, if_false]
    refine ⟨trivial, ?_, ?_, ?_, trivial⟩
    · simpa using hfold.1
    · simpa using congrArg List.length hfold.1
    · simpa using hfold.2

/-- A second, succeeding website source for the witness run. -/
def src_web_ok : Source :=
  { name := "W2", url := "https://pages.example/article", platform := "website",
    source_type := "website" }

/-- Witness environment: two active sources, the first with an unsupported
platform (it fails), the second a healthy website source. -/
def env_c4 : Env := { env_small with load_sources := .ok [src_tiktok, src_web_ok] }

/-- Witness for C4: the `tiktok` source fails, contributes exactly its one
error string, and the website source after it is still processed — the run
reports success with both sources iterated. -/
theorem run_isolation_witness :
    env_c4.load_sources = .ok [src_tiktok, src_web_ok] ∧
    (scrape_all_sources env_c4 []).1.success = true ∧
    (scrape_all_sources env_c4 []).1.errors =
      ["T (tiktok): Unsupported platform: tiktok"] ∧
    (scrape_all_sources env_c4 []).2.1.processed = 2 := by
  have h := run_isolation env_c4 [] [src_tiktok, src_web_ok] rfl
  refine ⟨rfl, h.1, ?_, ?_⟩
  · rw [h.2.1]
    decide
  · rw [h.2.2.2.1]
    rfl

end FikirArka
